import Mathlib

/-! Voice shop agent: cart reconciliation and the submit cycle.

A shallow embedding of the two front ends of the repository:

* `script.js` — the standalone page (`generateBtn` click handler, `handleServerResponse`);
* `shop-dashboard/src/App.jsx` — the React dashboard (`processVoiceCommand`).

Carts are JavaScript arrays of line objects. Two embeddings are given:

* a value-level one (section *Value model*), in which a cart is the list of its lines and an
  in-place update of a line is a functional update at the position of that line;
* a heap-level one (section *Heap model*), in which line objects and arrays live in a store and
  are addressed by reference, so that in-place mutation and sharing can be stated.

Numbers (`quantity`, `total_price`) are exact integers: the JSON numbers of the wire contract,
with `+=` as exact addition.
-/

namespace VoiceShop

/-! ## Data model -/

/-- A `product_id` as it arrives in a JSON reply: a string or an integer. -/
inductive ProductId
  | str (s : String)
  | num (n : Int)
  deriving DecidableEq, Repr

/-- A cart line, and equally an entry of a reply's `cart` array (the code pushes the entry object
itself into the cart). `product_id = none` is a missing field (`undefined`); `===` on two
`undefined` values is `true`, which is equality of `Option`. -/
structure Item where
  product_id : Option ProductId
  name : String
  quantity : Int
  total_price : Int
  deriving DecidableEq, Repr

/-- The parsed reply `data` of the command interpreter. Optional fields of the wire contract are
`Option`s; `cart = none` is a reply without a `cart` array. -/
structure Reply where
  message : String
  action_type : Option String
  cart : Option (List Item)
  transaction_id : Option String
  audio_base64 : Option String
  deriving DecidableEq, Repr

/-- JavaScript truthiness of an optional string field: present and not the empty string. -/
def truthy : Option String → Bool
  | some s => s != ""
  | none => false

/-- What the awaited network round trip delivers: `fetch` rejects, `response.json()` rejects, or a
parsed reply. -/
inductive FetchResult
  | rejected (errorMessage : String)
  | badBody (errorMessage : String)
  | json (data : Reply)
  deriving DecidableEq, Repr

/-- Errors that reach the `catch` block of a submit. -/
inductive JsError
  | network (errorMessage : String)
  | parse (errorMessage : String)
  | typeError (errorMessage : String)
  deriving DecidableEq, Repr

/-- The text of an error (`error.message`). -/
def JsError.message : JsError → String
  | .network m => m
  | .parse m => m
  | .typeError m => m

/-- Observable steps of a submit, logged in the order in which the code performs them: the
request, playing the reply's audio, speech synthesis, the assignment of the transaction id, the
cart actions of the reply (`handleServerResponse(data)` in `script.js`, step 3 of
`processVoiceCommand` in `App.jsx`), `renderCart()` and `fetchData()`. -/
inductive Effect
  | fetch (text : String) (cart_context : List (Option ProductId × Int))
  | playServerAudio (audio_base64 : String)
  | speakResponse (text : String)
  | setTransactionId (id : String)
  | reconcile
  | renderCart
  | fetchData
  deriving DecidableEq, Repr

/-! ## Value model -/

/-- The two assignments `existing.quantity += newItem.quantity;
existing.total_price += newItem.total_price`. -/
def Item.accumulate (existing newItem : Item) : Item :=
  { existing with
    quantity := existing.quantity + newItem.quantity
    total_price := existing.total_price + newItem.total_price }

/-- An in-place update of the object that `find` returns: the first line satisfying `p` is
replaced by its updated value, every other position is kept. -/
def updateFound (p : Item → Bool) (f : Item → Item) : List Item → List Item
  | [] => []
  | i :: rest => if p i then f i :: rest else i :: updateFound p f rest

/-- The body of `data.cart.forEach(newItem => ...)`, the same text in both front ends. -/
def addNewItem (cart : List Item) (newItem : Item) : List Item :=
  match cart.find? (fun i => i.product_id == newItem.product_id) with
  | some _ =>
      updateFound (fun i => i.product_id == newItem.product_id) (fun e => e.accumulate newItem) cart
  | none => cart ++ [newItem]

/-- Function `handleServerResponse(data)` of `script.js`, as a function of the global
`currentCart`. Reading `data.cart.forEach` or `data.cart.map` on a reply without `cart` throws a
`TypeError` before anything is changed. -/
def handleServerResponse (currentCart : List Item) (data : Reply) : Except JsError (List Item) :=
  if data.action_type = some "add" then
    match data.cart with
    | some delta => .ok (delta.foldl addNewItem currentCart)
    | none => .error (.typeError "data.cart is undefined")
  else if data.action_type = some "remove" then
    match data.cart with
    | some delta =>
        let idsToRemove := delta.map (fun i => i.product_id)
        .ok (currentCart.filter (fun i => !idsToRemove.contains i.product_id))
    | none => .error (.typeError "data.cart is undefined")
  else if data.action_type = some "checkout" then
    .ok []
  else
    .ok currentCart

/-- Step "3. Handle Cart Actions" of `processVoiceCommand` in `App.jsx`: the values passed to
`setBillCart` and `setLastTxnId`, as a function of the state values `billCart` and `lastTxnId`
(a setter that is not called leaves its value). -/
def handleCartActions (billCart : List Item) (lastTxnId : Option String) (data : Reply) :
    Except JsError (List Item × Option String) :=
  if data.action_type = some "add" then
    match data.cart with
    | some delta =>
        let newCart := billCart
        .ok (delta.foldl addNewItem newCart, lastTxnId)
    | none => .error (.typeError "data.cart is undefined")
  else if data.action_type = some "remove" then
    match data.cart with
    | some delta =>
        let idsToRemove := delta.map (fun i => i.product_id)
        .ok (billCart.filter (fun i => !idsToRemove.contains i.product_id), lastTxnId)
    | none => .error (.typeError "data.cart is undefined")
  else if data.action_type = some "checkout" then
    .ok ([], if truthy data.transaction_id then data.transaction_id else lastTxnId)
  else
    .ok (billCart, lastTxnId)

/-! ### The standalone page (`script.js`) -/

/-- What `output.innerHTML` shows. -/
inductive Output
  | blank
  | processing
  | botMessage (message : String)
  | errorNotice (errorMessage : String)
  deriving DecidableEq, Repr

/-- The globals of `script.js` and the page elements its click handler reads and writes. -/
structure Page where
  currentCart : List Item
  lastTransactionId : Option String
  transcriptBox : String
  output : Output
  effects : List Effect
  deriving DecidableEq, Repr

/-- Whitespace removed by `String.prototype.trim`: white space and line terminators. -/
def isJsWhitespace (c : Char) : Bool :=
  c.toNat ∈ [0x9, 0xA, 0xB, 0xC, 0xD, 0x20, 0xA0, 0x1680, 0x2028, 0x2029, 0x202F, 0x205F,
    0x3000, 0xFEFF] || (0x2000 ≤ c.toNat && c.toNat ≤ 0x200A)

/-- The method `trim()` of a string. -/
def jsTrim (s : String) : String :=
  ⟨((s.data.dropWhile isJsWhitespace).reverse.dropWhile isJsWhitespace).reverse⟩

/-- The `catch (error)` block of the click handler. -/
def Page.catchError (pg : Page) (error : JsError) : Page :=
  { pg with output := .errorNotice error.message }

/-- The click handler of `generateBtn`; `net` is what the awaited round trip delivers. -/
def generateBtnClick (pg : Page) (net : FetchResult) : Page :=
  let text := jsTrim pg.transcriptBox
  if text = "" then pg else
  let pg := { pg with output := .processing }
  let cartContext := pg.currentCart.map (fun item => (item.product_id, item.quantity))
  let pg := { pg with effects := pg.effects ++ [Effect.fetch text cartContext] }
  match net with
  | .rejected m => pg.catchError (.network m)
  | .badBody m => pg.catchError (.parse m)
  | .json data =>
      let pg :=
        if truthy data.audio_base64 then
          { pg with effects := pg.effects ++ [Effect.playServerAudio (data.audio_base64.getD "")] }
        else
          { pg with effects := pg.effects ++ [Effect.speakResponse data.message] }
      let pg :=
        if data.action_type = some "checkout" ∧ truthy data.transaction_id = true then
          { pg with
            lastTransactionId := data.transaction_id
            effects := pg.effects ++ [Effect.setTransactionId (data.transaction_id.getD "")] }
        else pg
      match handleServerResponse pg.currentCart data with
      | .error e => pg.catchError e
      | .ok cart =>
          { pg with
            currentCart := cart
            effects := pg.effects ++ [Effect.reconcile, Effect.renderCart]
            output := .botMessage data.message }

/-! ### The dashboard (`App.jsx`) -/

/-- The React state that `processVoiceCommand` reads and sets. -/
structure App where
  billCart : List Item
  lastTxnId : Option String
  transcript : String
  aiResponse : String
  loading : Bool
  effects : List Effect
  deriving DecidableEq, Repr

/-- The `catch` and `finally` blocks of `processVoiceCommand`. -/
def App.catchError (st : App) : App :=
  { st with aiResponse := "Error connecting to server.", loading := false }

/-- The function `processVoiceCommand` of `App.jsx`; `net` is what the awaited round trip
delivers. The state shown is the one after React has applied the setters. -/
def processVoiceCommand (st : App) (net : FetchResult) : App :=
  if st.transcript = "" then st else
  let st := { st with loading := true, aiResponse := "Processing..." }
  let cartContext := st.billCart.map (fun item => (item.product_id, item.quantity))
  let st := { st with effects := st.effects ++ [Effect.fetch st.transcript cartContext] }
  match net with
  | .rejected _ => st.catchError
  | .badBody _ => st.catchError
  | .json data =>
      let st :=
        if truthy data.audio_base64 then
          { st with effects := st.effects ++ [Effect.playServerAudio (data.audio_base64.getD "")] }
        else st
      let st := { st with aiResponse := data.message }
      match handleCartActions st.billCart st.lastTxnId data with
      | .error _ => st.catchError
      | .ok (cart, txn) =>
          { st with
            billCart := cart
            lastTxnId := txn
            effects := st.effects ++ [Effect.reconcile] ++
              (if data.action_type = some "checkout" ∧ truthy data.transaction_id = true then
                [Effect.setTransactionId (data.transaction_id.getD "")] else []) ++
              [Effect.fetchData]
            loading := false }

/-! ## Heap model

Line objects and arrays live in a store and are addressed by reference. A reply's `cart` array and
its entries are objects of the store as well (`response.json()` allocates them), so that
`currentCart.push(newItem)` shares the entry object with the reply. -/

/-- A reference: the index of an object, or of an array, in the store. -/
abbrev Ref := Nat

/-- The store: line objects and arrays of references to line objects. -/
structure Heap where
  objects : List Item
  arrays : List (List Ref)
  deriving DecidableEq, Repr

/-- The object behind a reference. -/
def Heap.obj (h : Heap) (r : Ref) : Item :=
  h.objects.getD r ⟨none, "", 0, 0⟩

/-- The elements of the array behind a reference. -/
def Heap.arr (h : Heap) (a : Ref) : List Ref :=
  h.arrays.getD a []

/-- Assignment to the fields of an object, in place. -/
def Heap.setObj (h : Heap) (r : Ref) (v : Item) : Heap :=
  { h with objects := h.objects.set r v }

/-- The method `push` of an array: the array itself grows. -/
def Heap.push (h : Heap) (a : Ref) (r : Ref) : Heap :=
  { h with arrays := h.arrays.set a (h.arr a ++ [r]) }

/-- Allocation of a new array (an array literal, a spread copy, the result of `filter`). -/
def Heap.newArray (h : Heap) (elems : List Ref) : Heap × Ref :=
  ({ h with arrays := h.arrays ++ [elems] }, h.arrays.length)

/-- The value of a cart: the lines its array refers to, in order. -/
def Heap.lines (h : Heap) (a : Ref) : List Item :=
  (h.arr a).map h.obj

/-- The body of `data.cart.forEach(newItem => ...)` on the store: `cart` is the array searched and
pushed to (`currentCart` in `script.js`, `newCart` in `App.jsx`). -/
def addNewItemRef (h : Heap) (cart : Ref) (newItem : Ref) : Heap :=
  match (h.arr cart).find? (fun i => (h.obj i).product_id == (h.obj newItem).product_id) with
  | some existing =>
      let h1 := h.setObj existing
        { h.obj existing with quantity := (h.obj existing).quantity + (h.obj newItem).quantity }
      h1.setObj existing
        { h1.obj existing with
          total_price := (h1.obj existing).total_price + (h1.obj newItem).total_price }
  | none => h.push cart newItem

/-- The cart-related part of a parsed reply whose `cart` array lives in the store. -/
structure ParsedReply where
  action_type : Option String
  cart : Option Ref
  deriving DecidableEq, Repr

/-- The store together with the global variable `currentCart` of `script.js`. -/
structure PageStore where
  heap : Heap
  currentCart : Ref
  deriving DecidableEq, Repr

/-- Function `handleServerResponse(data)` of `script.js` on the store. The reply's array is not
the cart's array, so the `forEach` runs over the entries the reply had when the loop began. -/
def handleServerResponseRef (s : PageStore) (data : ParsedReply) : Except JsError PageStore :=
  if data.action_type = some "add" then
    match data.cart with
    | some delta =>
        .ok { s with
          heap := (s.heap.arr delta).foldl (fun h newItem => addNewItemRef h s.currentCart newItem)
            s.heap }
    | none => .error (.typeError "data.cart is undefined")
  else if data.action_type = some "remove" then
    match data.cart with
    | some delta =>
        let idsToRemove := (s.heap.arr delta).map (fun i => (s.heap.obj i).product_id)
        let filtered := s.heap.newArray
          ((s.heap.arr s.currentCart).filter
            (fun i => !idsToRemove.contains (s.heap.obj i).product_id))
        .ok { heap := filtered.1, currentCart := filtered.2 }
    | none => .error (.typeError "data.cart is undefined")
  else if data.action_type = some "checkout" then
    let empty := s.heap.newArray []
    .ok { heap := empty.1, currentCart := empty.2 }
  else
    .ok s

/-- The store together with the React state value `billCart` of `App.jsx`. -/
structure AppStore where
  heap : Heap
  billCart : Ref
  deriving DecidableEq, Repr

/-- Step "3. Handle Cart Actions" of `processVoiceCommand` on the store: `billCart` afterwards is
the array passed to `setBillCart`. -/
def handleCartActionsRef (s : AppStore) (data : ParsedReply) : Except JsError AppStore :=
  if data.action_type = some "add" then
    match data.cart with
    | some delta =>
        let newCart := s.heap.newArray (s.heap.arr s.billCart)
        .ok { heap := (s.heap.arr delta).foldl
                (fun h newItem => addNewItemRef h newCart.2 newItem) newCart.1
              billCart := newCart.2 }
    | none => .error (.typeError "data.cart is undefined")
  else if data.action_type = some "remove" then
    match data.cart with
    | some delta =>
        let idsToRemove := (s.heap.arr delta).map (fun i => (s.heap.obj i).product_id)
        let filtered := s.heap.newArray
          ((s.heap.arr s.billCart).filter
            (fun i => !idsToRemove.contains (s.heap.obj i).product_id))
        .ok { heap := filtered.1, billCart := filtered.2 }
    | none => .error (.typeError "data.cart is undefined")
  else if data.action_type = some "checkout" then
    let empty := s.heap.newArray []
    .ok { heap := empty.1, billCart := empty.2 }
  else
    .ok s

/-- The value of a parsed reply in a store: its delta read as the list of its entries. -/
def ParsedReply.view (data : ParsedReply) (h : Heap) (message : String)
    (transaction_id audio_base64 : Option String) : Reply :=
  ⟨message, data.action_type, data.cart.map h.lines, transaction_id, audio_base64⟩

/-- A cart array and a freshly parsed delta array in a store: the cart is an allocated array of
pairwise distinct allocated line objects, and the delta is an allocated array of pairwise distinct
allocated objects, none of which is a line of the cart. -/
def FreshReply (h : Heap) (cart : Ref) (data : ParsedReply) : Prop :=
  cart < h.arrays.length ∧
  (∀ r ∈ h.arr cart, r < h.objects.length) ∧
  (h.arr cart).Nodup ∧
  ∀ delta, data.cart = some delta →
    delta < h.arrays.length ∧
    (∀ r ∈ h.arr delta, r < h.objects.length) ∧
    (h.arr delta).Nodup ∧
    ∀ r ∈ h.arr delta, r ∉ h.arr cart

/-- A store for examples: array `0` is a cart with one line for `p1`, array `1` a reply's delta
with one entry for `p1`. -/
def exampleHeap : Heap :=
  ⟨[⟨some (.str "p1"), "Maggi", 2, 30⟩, ⟨some (.str "p1"), "Maggi", 1, 15⟩], [[0], [1]]⟩

/-! ## Totals shown with the cart -/

/-- The product ids of a cart, in line order. -/
def ids (cart : List Item) : List (Option ProductId) :=
  cart.map (fun i => i.product_id)

/-- The cart invariant: at most one line per product id. -/
def OneLinePerProduct (cart : List Item) : Prop :=
  (ids cart).Nodup

instance (cart : List Item) : Decidable (OneLinePerProduct cart) :=
  inferInstanceAs (Decidable (List.Nodup _))

/-! ### The `forEach` body -/

theorem addNewItem_cons (i : Item) (rest : List Item) (n : Item) :
    addNewItem (i :: rest) n =
      if i.product_id = n.product_id then i.accumulate n :: rest
      else i :: addNewItem rest n := by
  unfold addNewItem
  by_cases h : i.product_id = n.product_id
  · simp [List.find?, updateFound, h]
  · simp only [List.find?, beq_iff_eq, h, if_false]
    have hb : (i.product_id == n.product_id) = false := by simpa using h
    rw [hb]
    cases hf : List.find? (fun i => i.product_id == n.product_id) rest with
    | none => simp
    | some e => simp [updateFound, h]

theorem accumulate_product_id (e n : Item) : (e.accumulate n).product_id = e.product_id := rfl

/-- A delta entry whose id has no line in the cart is appended. -/
theorem addNewItem_of_not_mem (cart : List Item) (n : Item) (h : n.product_id ∉ ids cart) :
    addNewItem cart n = cart ++ [n] := by
  induction cart with
  | nil => rfl
  | cons i rest ih =>
    have h1 : i.product_id ≠ n.product_id := by
      intro e; exact h (by simp [ids, e])
    have h2 : n.product_id ∉ ids rest := by
      intro m; exact h (by simp only [ids, List.map_cons, List.mem_cons]; exact Or.inr m)
    rw [addNewItem_cons, if_neg h1, ih h2]; rfl

/-- A delta entry whose id has a line in the cart leaves the sequence of ids as it is. -/
theorem ids_addNewItem_of_mem (cart : List Item) (n : Item) (h : n.product_id ∈ ids cart) :
    ids (addNewItem cart n) = ids cart := by
  induction cart with
  | nil => simp [ids] at h
  | cons i rest ih =>
    rw [addNewItem_cons]
    by_cases h1 : i.product_id = n.product_id
    · simp [h1, ids, accumulate_product_id]
    · have h2 : n.product_id ∈ ids rest := by
        simp only [ids, List.map_cons, List.mem_cons] at h
        rcases h with h | h
        · exact absurd h.symm h1
        · exact h
      simp only [h1, if_false, ids, List.map_cons]
      exact congrArg _ (ih h2)

/-- One `forEach` step keeps the invariant "at most one line per product id". -/
theorem addNewItem_oneLine (cart : List Item) (n : Item) (hinv : OneLinePerProduct cart) :
    OneLinePerProduct (addNewItem cart n) := by
  by_cases h : n.product_id ∈ ids cart
  · unfold OneLinePerProduct
    rw [ids_addNewItem_of_mem cart n h]
    exact hinv
  · rw [addNewItem_of_not_mem cart n h]
    unfold OneLinePerProduct at *
    simp only [ids, List.map_append, List.map_cons, List.map_nil] at *
    rw [List.nodup_append]
    refine ⟨hinv, List.nodup_singleton _, ?_⟩
    intro a ha hb
    simp only [List.mem_singleton] at hb
    exact h (hb ▸ ha)

/-- The whole `forEach` keeps the invariant, whatever the delta. -/
theorem foldl_addNewItem_oneLine (delta cart : List Item) (hinv : OneLinePerProduct cart) :
    OneLinePerProduct (delta.foldl addNewItem cart) := by
  induction delta generalizing cart with
  | nil => exact hinv
  | cons n rest ih => exact ih _ (addNewItem_oneLine cart n hinv)

theorem handleServerResponse_add (cart delta : List Item) (data : Reply)
    (hact : data.action_type = some "add") (hdelta : data.cart = some delta) :
    handleServerResponse cart data = .ok (delta.foldl addNewItem cart) := by
  unfold handleServerResponse
  rw [if_pos hact, hdelta]

theorem handleServerResponse_remove (cart delta : List Item) (data : Reply)
    (hact : data.action_type = some "remove") (hdelta : data.cart = some delta) :
    handleServerResponse cart data =
      .ok (cart.filter (fun i => !(delta.map (fun i => i.product_id)).contains i.product_id)) := by
  have h1 : data.action_type ≠ some "add" := by rw [hact]; decide
  unfold handleServerResponse
  rw [if_neg h1, if_pos hact, hdelta]

theorem handleServerResponse_checkout (cart : List Item) (data : Reply)
    (hact : data.action_type = some "checkout") :
    handleServerResponse cart data = .ok [] := by
  have h1 : data.action_type ≠ some "add" := by rw [hact]; decide
  have h2 : data.action_type ≠ some "remove" := by rw [hact]; decide
  unfold handleServerResponse
  rw [if_neg h1, if_neg h2, if_pos hact]

theorem handleServerResponse_other (cart : List Item) (data : Reply)
    (h1 : data.action_type ≠ some "add") (h2 : data.action_type ≠ some "remove")
    (h3 : data.action_type ≠ some "checkout") :
    handleServerResponse cart data = .ok cart := by
  unfold handleServerResponse
  rw [if_neg h1, if_neg h2, if_neg h3]

theorem handleServerResponse_no_cart (cart : List Item) (data : Reply)
    (hact : data.action_type = some "add" ∨ data.action_type = some "remove")
    (hdelta : data.cart = none) :
    handleServerResponse cart data = .error (.typeError "data.cart is undefined") := by
  unfold handleServerResponse
  rcases hact with hact | hact
  · rw [if_pos hact, hdelta]
  · have h1 : data.action_type ≠ some "add" := by rw [hact]; decide
    rw [if_neg h1, if_pos hact, hdelta]

theorem handleCartActions_add (cart delta : List Item) (l : Option String) (data : Reply)
    (hact : data.action_type = some "add") (hdelta : data.cart = some delta) :
    handleCartActions cart l data = .ok (delta.foldl addNewItem cart, l) := by
  unfold handleCartActions
  rw [if_pos hact, hdelta]

theorem handleCartActions_remove (cart delta : List Item) (l : Option String) (data : Reply)
    (hact : data.action_type = some "remove") (hdelta : data.cart = some delta) :
    handleCartActions cart l data =
      .ok (cart.filter (fun i => !(delta.map (fun i => i.product_id)).contains i.product_id),
        l) := by
  have h1 : data.action_type ≠ some "add" := by rw [hact]; decide
  unfold handleCartActions
  rw [if_neg h1, if_pos hact, hdelta]

theorem handleCartActions_checkout (cart : List Item) (l : Option String) (data : Reply)
    (hact : data.action_type = some "checkout") :
    handleCartActions cart l data =
      .ok ([], if truthy data.transaction_id then data.transaction_id else l) := by
  have h1 : data.action_type ≠ some "add" := by rw [hact]; decide
  have h2 : data.action_type ≠ some "remove" := by rw [hact]; decide
  unfold handleCartActions
  rw [if_neg h1, if_neg h2, if_pos hact]

theorem handleCartActions_other (cart : List Item) (l : Option String) (data : Reply)
    (h1 : data.action_type ≠ some "add") (h2 : data.action_type ≠ some "remove")
    (h3 : data.action_type ≠ some "checkout") :
    handleCartActions cart l data = .ok (cart, l) := by
  unfold handleCartActions
  rw [if_neg h1, if_neg h2, if_neg h3]

theorem handleCartActions_no_cart (cart : List Item) (l : Option String) (data : Reply)
    (hact : data.action_type = some "add" ∨ data.action_type = some "remove")
    (hdelta : data.cart = none) :
    handleCartActions cart l data = .error (.typeError "data.cart is undefined") := by
  unfold handleCartActions
  rcases hact with hact | hact
  · rw [if_pos hact, hdelta]
  · have h1 : data.action_type ≠ some "add" := by rw [hact]; decide
    rw [if_neg h1, if_pos hact, hdelta]

/-- The filter of the `remove` branch, with `includes` read as membership. -/
theorem remove_filter_eq (cart delta : List Item) :
    cart.filter (fun i => !(delta.map (fun i => i.product_id)).contains i.product_id)
      = cart.filter (fun l => decide (l.product_id ∉ ids delta)) := by
  apply List.filter_congr
  intro l _
  have hc : (delta.map (fun i => i.product_id)).contains l.product_id
      = decide (l.product_id ∈ ids delta) := by
    simp [ids]
  rw [hc]
  by_cases h : l.product_id ∈ ids delta <;> simp [h]

/-- The cart of a successful reconciliation keeps the invariant (`script.js`). -/
theorem handleServerResponse_oneLine (cart cart2 : List Item) (data : Reply)
    (hinv : OneLinePerProduct cart) (h : handleServerResponse cart data = .ok cart2) :
    OneLinePerProduct cart2 := by
  by_cases h1 : data.action_type = some "add"
  · cases hc : data.cart with
    | none => rw [handleServerResponse_no_cart cart data (Or.inl h1) hc] at h; cases h
    | some delta =>
      rw [handleServerResponse_add cart delta data h1 hc] at h
      cases h
      exact foldl_addNewItem_oneLine delta cart hinv
  · by_cases h2 : data.action_type = some "remove"
    · cases hc : data.cart with
      | none => rw [handleServerResponse_no_cart cart data (Or.inr h2) hc] at h; cases h
      | some delta =>
        rw [handleServerResponse_remove cart delta data h2 hc] at h
        cases h
        exact ((List.filter_sublist _).map _).nodup hinv
    · by_cases h3 : data.action_type = some "checkout"
      · rw [handleServerResponse_checkout cart data h3] at h
        cases h
        exact List.nodup_nil
      · rw [handleServerResponse_other cart data h1 h2 h3] at h
        cases h
        exact hinv

/-- The cart of a successful reconciliation keeps the invariant (`App.jsx`). -/
theorem handleCartActions_oneLine (cart cart2 : List Item) (l l2 : Option String) (data : Reply)
    (hinv : OneLinePerProduct cart) (h : handleCartActions cart l data = .ok (cart2, l2)) :
    OneLinePerProduct cart2 := by
  by_cases h1 : data.action_type = some "add"
  · cases hc : data.cart with
    | none => rw [handleCartActions_no_cart cart l data (Or.inl h1) hc] at h; cases h
    | some delta =>
      rw [handleCartActions_add cart delta l data h1 hc] at h
      cases h
      exact foldl_addNewItem_oneLine delta cart hinv
  · by_cases h2 : data.action_type = some "remove"
    · cases hc : data.cart with
      | none => rw [handleCartActions_no_cart cart l data (Or.inr h2) hc] at h; cases h
      | some delta =>
        rw [handleCartActions_remove cart delta l data h2 hc] at h
        cases h
        exact ((List.filter_sublist _).map _).nodup hinv
    · by_cases h3 : data.action_type = some "checkout"
      · rw [handleCartActions_checkout cart l data h3] at h
        cases h
        exact List.nodup_nil
      · rw [handleCartActions_other cart l data h1 h2 h3] at h
        cases h
        exact hinv

/-! ## Claims on cart reconciliation -/

/-- C3. For a cart `C` and a `remove` reply with delta `D`, both front ends produce `C` filtered
to the lines whose product id is not named in `D`: the result is a sublist of `C` (surviving
lines unchanged and in their original order) and holds exactly those lines. -/
theorem remove_filters_named_ids (cart delta : List Item) (data : Reply)
    (lastTxnId : Option String)
    (hact : data.action_type = some "remove") (hdelta : data.cart = some delta) :
    ∃ cart2 : List Item,
      handleServerResponse cart data = .ok cart2 ∧
      handleCartActions cart lastTxnId data = .ok (cart2, lastTxnId) ∧
      cart2 = cart.filter (fun l => decide (l.product_id ∉ ids delta)) ∧
      cart2.Sublist cart ∧
      (∀ l : Item, l ∈ cart2 ↔ l ∈ cart ∧ l.product_id ∉ ids delta) := by
  refine ⟨cart.filter (fun l => decide (l.product_id ∉ ids delta)), ?_, ?_, rfl, ?_, ?_⟩
  · rw [handleServerResponse_remove cart delta data hact hdelta, remove_filter_eq]
  · rw [handleCartActions_remove cart delta lastTxnId data hact hdelta, remove_filter_eq]
  · exact List.filter_sublist _
  · intro l
    simp [List.mem_filter]

/-- C3, at the scenario of the specification: cart `[p1, p2]` and a delta naming `p1`. -/
theorem remove_filters_named_ids_witness :
    ∃ cart2 : List Item,
      handleServerResponse
        [⟨some (.str "p1"), "Maggi", 2, 30⟩, ⟨some (.str "p2"), "Salt", 1, 20⟩]
        ⟨"Removed", some "remove", some [⟨some (.str "p1"), "", 0, 0⟩], none, none⟩
        = .ok cart2 ∧
      handleCartActions
        [⟨some (.str "p1"), "Maggi", 2, 30⟩, ⟨some (.str "p2"), "Salt", 1, 20⟩] none
        ⟨"Removed", some "remove", some [⟨some (.str "p1"), "", 0, 0⟩], none, none⟩
        = .ok (cart2, none) ∧
      cart2 = List.filter
        (fun l => decide (l.product_id ∉ ids [⟨some (.str "p1"), "", 0, 0⟩]))
        [⟨some (.str "p1"), "Maggi", 2, 30⟩, ⟨some (.str "p2"), "Salt", 1, 20⟩] ∧
      cart2.Sublist [⟨some (.str "p1"), "Maggi", 2, 30⟩, ⟨some (.str "p2"), "Salt", 1, 20⟩] ∧
      (∀ l : Item, l ∈ cart2 ↔
        l ∈ [(⟨some (.str "p1"), "Maggi", 2, 30⟩ : Item), ⟨some (.str "p2"), "Salt", 1, 20⟩] ∧
        l.product_id ∉ ids [⟨some (.str "p1"), "", 0, 0⟩]) :=
  remove_filters_named_ids
    [⟨some (.str "p1"), "Maggi", 2, 30⟩, ⟨some (.str "p2"), "Salt", 1, 20⟩]
    [⟨some (.str "p1"), "", 0, 0⟩]
    ⟨"Removed", some "remove", some [⟨some (.str "p1"), "", 0, 0⟩], none, none⟩ none rfl rfl

theorem Heap.obj_setObj_ne (h : Heap) (r r2 : Ref) (v : Item) (hne : r ≠ r2) :
    (h.setObj r v).obj r2 = h.obj r2 := by
  unfold Heap.obj Heap.setObj
  simp only [List.getD_eq_getElem?_getD]
  rw [List.getElem?_set_ne hne]

theorem Heap.obj_setObj_self (h : Heap) (r : Ref) (v : Item) (hr : r < h.objects.length) :
    (h.setObj r v).obj r = v := by
  unfold Heap.obj Heap.setObj
  simp only [List.getD_eq_getElem?_getD]
  rw [List.getElem?_set_self hr]
  rfl

theorem Heap.setObj_of_le (h : Heap) (r : Ref) (v : Item) (hr : h.objects.length ≤ r) :
    h.setObj r v = h := by
  unfold Heap.setObj
  rw [List.set_eq_of_length_le hr]

theorem Heap.objects_length_setObj (h : Heap) (r : Ref) (v : Item) :
    (h.setObj r v).objects.length = h.objects.length := by
  simp [Heap.setObj]

theorem Heap.arr_setObj (h : Heap) (r a : Ref) (v : Item) : (h.setObj r v).arr a = h.arr a := rfl

theorem Heap.obj_push (h : Heap) (a r r2 : Ref) : (h.push a r).obj r2 = h.obj r2 := rfl

theorem Heap.arr_push_ne (h : Heap) (a a2 r : Ref) (hne : a2 ≠ a) :
    (h.push a r).arr a2 = h.arr a2 := by
  unfold Heap.arr Heap.push
  simp only [List.getD_eq_getElem?_getD]
  rw [List.getElem?_set_ne (Ne.symm hne)]

theorem Heap.arr_push_self (h : Heap) (a r : Ref) :
    (h.push a r).arr a = if a < h.arrays.length then h.arr a ++ [r] else h.arr a := by
  by_cases h2 : a < h.arrays.length
  · rw [if_pos h2]
    unfold Heap.push Heap.arr
    simp only [List.getD_eq_getElem?_getD]
    rw [List.getElem?_set_self h2]
    rfl
  · rw [if_neg h2]
    unfold Heap.push
    rw [List.set_eq_of_length_le (Nat.le_of_not_lt h2)]

theorem Heap.arr_newArray_old (h : Heap) (elems : List Ref) (a : Ref)
    (ha : a < h.arrays.length) : (h.newArray elems).1.arr a = h.arr a := by
  unfold Heap.arr Heap.newArray
  simp only [List.getD_eq_getElem?_getD]
  rw [List.getElem?_append_left ha]

theorem Heap.arr_newArray_new (h : Heap) (elems : List Ref) :
    (h.newArray elems).1.arr (h.newArray elems).2 = elems := by
  unfold Heap.arr Heap.newArray
  simp [List.getD_eq_getElem?_getD]

/-- One `forEach` step never changes the number of arrays. -/
theorem addNewItemRef_arrays_length (h : Heap) (c n : Ref) :
    (addNewItemRef h c n).arrays.length = h.arrays.length := by
  unfold addNewItemRef
  split
  · rfl
  · simp [Heap.push]

/-- One `forEach` step leaves every array other than the cart's as it is. -/
theorem addNewItemRef_arr_ne (h : Heap) (c n a : Ref) (hne : a ≠ c) :
    (addNewItemRef h c n).arr a = h.arr a := by
  unfold addNewItemRef
  split
  · rfl
  · exact Heap.arr_push_ne h c a n hne

/-- One `forEach` step only appends to the cart's array. -/
theorem addNewItemRef_arr_self (h : Heap) (c n : Ref) :
    List.IsPrefix (h.arr c) ((addNewItemRef h c n).arr c) := by
  unfold addNewItemRef
  split
  · exact List.prefix_refl _
  · rw [Heap.arr_push_self]
    split_ifs
    · exact List.prefix_append _ _
    · exact List.prefix_refl _

/-- One `forEach` step never changes the product id of an object. -/
theorem addNewItemRef_product_id (h : Heap) (c n r : Ref) :
    ((addNewItemRef h c n).obj r).product_id = (h.obj r).product_id := by
  unfold addNewItemRef
  split
  · next existing _ =>
    by_cases hr : existing = r
    · subst hr
      by_cases hlen : existing < h.objects.length
      · rw [Heap.obj_setObj_self _ _ _ (by rw [Heap.objects_length_setObj]; exact hlen),
          Heap.obj_setObj_self _ _ _ hlen]
      · rw [Heap.setObj_of_le h _ _ (Nat.le_of_not_lt hlen),
          Heap.setObj_of_le h _ _ (Nat.le_of_not_lt hlen)]
    · rw [Heap.obj_setObj_ne _ _ _ _ hr, Heap.obj_setObj_ne _ _ _ _ hr]
  · rfl

/-- One `forEach` step changes no object whose product id differs from the entry's. -/
theorem addNewItemRef_obj_other (h : Heap) (c n r : Ref)
    (hne : (h.obj r).product_id ≠ (h.obj n).product_id) :
    (addNewItemRef h c n).obj r = h.obj r := by
  unfold addNewItemRef
  split
  · next existing hfind =>
    have hid : (h.obj existing).product_id = (h.obj n).product_id := by
      simpa using List.find?_some hfind
    have hr : existing ≠ r := by
      intro e; exact hne (e ▸ hid)
    rw [Heap.obj_setObj_ne _ _ _ _ hr, Heap.obj_setObj_ne _ _ _ _ hr]
  · rfl

/-! ### The whole `forEach` on the store -/

theorem forEach_arrays_length (ds : List Ref) (h : Heap) (c : Ref) :
    (ds.foldl (fun h newItem => addNewItemRef h c newItem) h).arrays.length
      = h.arrays.length := by
  induction ds generalizing h with
  | nil => rfl
  | cons n rest ih => rw [List.foldl_cons, ih, addNewItemRef_arrays_length]

theorem forEach_arr_ne (ds : List Ref) (h : Heap) (c a : Ref) (hne : a ≠ c) :
    (ds.foldl (fun h newItem => addNewItemRef h c newItem) h).arr a = h.arr a := by
  induction ds generalizing h with
  | nil => rfl
  | cons n rest ih => rw [List.foldl_cons, ih, addNewItemRef_arr_ne h c n a hne]

theorem forEach_arr_self (ds : List Ref) (h : Heap) (c : Ref) :
    List.IsPrefix (h.arr c) ((ds.foldl (fun h newItem => addNewItemRef h c newItem) h).arr c) := by
  induction ds generalizing h with
  | nil => exact List.prefix_refl _
  | cons n rest ih =>
    rw [List.foldl_cons]
    exact (addNewItemRef_arr_self h c n).trans (ih _)

theorem forEach_product_id (ds : List Ref) (h : Heap) (c r : Ref) :
    ((ds.foldl (fun h newItem => addNewItemRef h c newItem) h).obj r).product_id
      = (h.obj r).product_id := by
  induction ds generalizing h with
  | nil => rfl
  | cons n rest ih => rw [List.foldl_cons, ih, addNewItemRef_product_id]

/-- The `forEach` changes no object whose product id is not named by an entry of the delta. -/
theorem forEach_obj_other (ds : List Ref) (h : Heap) (c r : Ref)
    (hne : ∀ n ∈ ds, (h.obj r).product_id ≠ (h.obj n).product_id) :
    (ds.foldl (fun h newItem => addNewItemRef h c newItem) h).obj r = h.obj r := by
  induction ds generalizing h with
  | nil => rfl
  | cons n rest ih =>
    rw [List.foldl_cons, ih, addNewItemRef_obj_other h c n r (hne n (List.mem_cons_self _ _))]
    intro m hm
    rw [addNewItemRef_product_id, addNewItemRef_product_id]
    exact hne m (List.mem_cons_of_mem _ hm)

/-! ## The submit cycle -/

/-- The cart, the transaction id and the output after a submit that received a parsed reply
(`script.js`). -/
theorem generateBtnClick_json (pg : Page) (data : Reply) (h : jsTrim pg.transcriptBox ≠ "") :
    (generateBtnClick pg (.json data)).currentCart =
      (match handleServerResponse pg.currentCart data with
        | .ok cart => cart
        | .error _ => pg.currentCart) ∧
    (generateBtnClick pg (.json data)).lastTransactionId =
      (if data.action_type = some "checkout" ∧ truthy data.transaction_id = true
        then data.transaction_id else pg.lastTransactionId) ∧
    (generateBtnClick pg (.json data)).output =
      (match handleServerResponse pg.currentCart data with
        | .ok _ => Output.botMessage data.message
        | .error e => Output.errorNotice e.message) := by
  simp only [generateBtnClick, h, if_false]
  split_ifs <;>
    (cases hh : handleServerResponse pg.currentCart data <;> simp [Page.catchError, hh])

/-- The cart, the transaction id and the message after a submit that received a parsed reply
(`App.jsx`). -/
theorem processVoiceCommand_json (st : App) (data : Reply) (h : st.transcript ≠ "") :
    (processVoiceCommand st (.json data)).billCart =
      (match handleCartActions st.billCart st.lastTxnId data with
        | .ok r => r.1
        | .error _ => st.billCart) ∧
    (processVoiceCommand st (.json data)).lastTxnId =
      (match handleCartActions st.billCart st.lastTxnId data with
        | .ok r => r.2
        | .error _ => st.lastTxnId) ∧
    (processVoiceCommand st (.json data)).aiResponse =
      (match handleCartActions st.billCart st.lastTxnId data with
        | .ok _ => data.message
        | .error _ => "Error connecting to server.") := by
  simp only [processVoiceCommand, h, if_false]
  split_ifs <;>
    (cases hh : handleCartActions st.billCart st.lastTxnId data <;> simp [App.catchError, hh])

/-- A submit that received no parsed reply changes neither cart nor transaction id. -/
theorem generateBtnClick_failed (pg : Page) (m : String) (h : jsTrim pg.transcriptBox ≠ "") :
    generateBtnClick pg (.rejected m) =
      { pg with
        output := .errorNotice m
        effects := pg.effects ++ [Effect.fetch (jsTrim pg.transcriptBox)
          (pg.currentCart.map (fun item => (item.product_id, item.quantity)))] } ∧
    generateBtnClick pg (.badBody m) =
      { pg with
        output := .errorNotice m
        effects := pg.effects ++ [Effect.fetch (jsTrim pg.transcriptBox)
          (pg.currentCart.map (fun item => (item.product_id, item.quantity)))] } := by
  simp [generateBtnClick, h, Page.catchError, JsError.message]

/-- The transaction id that `handleCartActions` hands to `setLastTxnId`. -/
theorem handleCartActions_txn (cart cart2 : List Item) (l l2 : Option String) (data : Reply)
    (h : handleCartActions cart l data = .ok (cart2, l2)) :
    l2 = if data.action_type = some "checkout" ∧ truthy data.transaction_id = true
      then data.transaction_id else l := by
  by_cases h1 : data.action_type = some "add"
  · have hne : data.action_type ≠ some "checkout" := by rw [h1]; decide
    cases hc : data.cart with
    | none => rw [handleCartActions_no_cart cart l data (Or.inl h1) hc] at h; cases h
    | some delta =>
      rw [handleCartActions_add cart delta l data h1 hc] at h
      cases h
      simp [hne]
  · by_cases h2 : data.action_type = some "remove"
    · have hne : data.action_type ≠ some "checkout" := by rw [h2]; decide
      cases hc : data.cart with
      | none => rw [handleCartActions_no_cart cart l data (Or.inr h2) hc] at h; cases h
      | some delta =>
        rw [handleCartActions_remove cart delta l data h2 hc] at h
        cases h
        simp [hne]
    · by_cases h3 : data.action_type = some "checkout"
      · rw [handleCartActions_checkout cart l data h3] at h
        cases h
        simp [h3]
      · rw [handleCartActions_other cart l data h1 h2 h3] at h
        cases h
        simp [h3]

theorem generateBtnClick_empty (pg : Page) (net : FetchResult)
    (h : jsTrim pg.transcriptBox = "") : generateBtnClick pg net = pg := by
  simp [generateBtnClick, h]

theorem processVoiceCommand_empty (st : App) (net : FetchResult) (h : st.transcript = "") :
    processVoiceCommand st net = st := by
  simp [processVoiceCommand, h]

theorem processVoiceCommand_failed (st : App) (m : String) (h : st.transcript ≠ "") :
    processVoiceCommand st (.rejected m) =
      { st with
        aiResponse := "Error connecting to server."
        loading := false
        effects := st.effects ++ [Effect.fetch st.transcript
          (st.billCart.map (fun item => (item.product_id, item.quantity)))] } ∧
    processVoiceCommand st (.badBody m) =
      { st with
        aiResponse := "Error connecting to server."
        loading := false
        effects := st.effects ++ [Effect.fetch st.transcript
          (st.billCart.map (fun item => (item.product_id, item.quantity)))] } := by
  simp [processVoiceCommand, h, App.catchError]

/-- C5. The invariant "at most one line per product id" is kept by every submit in both front
ends, whatever the round trip delivers (a reply of any action type, also an `add` delta that
names an id more than once, or a failure), and by every successful reconciliation. -/
theorem one_line_per_product_preserved (pg : Page) (st : App) (net : FetchResult)
    (hpg : OneLinePerProduct pg.currentCart) (hst : OneLinePerProduct st.billCart) :
    OneLinePerProduct (generateBtnClick pg net).currentCart ∧
    OneLinePerProduct (processVoiceCommand st net).billCart ∧
    (∀ (data : Reply) (cart2 : List Item),
      handleServerResponse pg.currentCart data = .ok cart2 → OneLinePerProduct cart2) ∧
    (∀ (data : Reply) (l l2 : Option String) (cart2 : List Item),
      handleCartActions st.billCart l data = .ok (cart2, l2) → OneLinePerProduct cart2) := by
  refine ⟨?_, ?_, ?_, ?_⟩
  · by_cases h : jsTrim pg.transcriptBox = ""
    · rw [generateBtnClick_empty pg net h]; exact hpg
    · cases net with
      | rejected m => rw [(generateBtnClick_failed pg m h).1]; exact hpg
      | badBody m => rw [(generateBtnClick_failed pg m h).2]; exact hpg
      | json data =>
        rw [(generateBtnClick_json pg data h).1]
        cases hr : handleServerResponse pg.currentCart data with
        | error e => exact hpg
        | ok cart2 => exact handleServerResponse_oneLine _ _ data hpg hr
  · by_cases h : st.transcript = ""
    · rw [processVoiceCommand_empty st net h]; exact hst
    · cases net with
      | rejected m => rw [(processVoiceCommand_failed st m h).1]; exact hst
      | badBody m => rw [(processVoiceCommand_failed st m h).2]; exact hst
      | json data =>
        rw [(processVoiceCommand_json st data h).1]
        cases hr : handleCartActions st.billCart st.lastTxnId data with
        | error e => exact hst
        | ok r => exact handleCartActions_oneLine _ r.1 _ r.2 data hst hr
  · intro data cart2 h
    exact handleServerResponse_oneLine _ _ data hpg h
  · intro data l l2 cart2 h
    exact handleCartActions_oneLine _ _ l l2 data hst h

/-- C5, at a cart with a line for `p1` and an `add` delta that names the new id `p2` twice. -/
theorem one_line_per_product_preserved_witness :
    OneLinePerProduct (generateBtnClick
      ⟨[⟨some (.str "p1"), "Maggi", 2, 30⟩], none, "add two salt", .blank, []⟩
      (.json ⟨"Added", some "add",
        some [⟨some (.str "p2"), "Salt", 1, 20⟩, ⟨some (.str "p2"), "Salt", 1, 20⟩],
        none, none⟩)).currentCart ∧
    OneLinePerProduct (processVoiceCommand
      ⟨[⟨some (.str "p1"), "Maggi", 2, 30⟩], none, "add two salt", "", false, []⟩
      (.json ⟨"Added", some "add",
        some [⟨some (.str "p2"), "Salt", 1, 20⟩, ⟨some (.str "p2"), "Salt", 1, 20⟩],
        none, none⟩)).billCart ∧
    (∀ (data : Reply) (cart2 : List Item),
      handleServerResponse
        (Page.mk [⟨some (.str "p1"), "Maggi", 2, 30⟩] none "add two salt" .blank []).currentCart
        data = .ok cart2 → OneLinePerProduct cart2) ∧
    (∀ (data : Reply) (l l2 : Option String) (cart2 : List Item),
      handleCartActions
        (App.mk [⟨some (.str "p1"), "Maggi", 2, 30⟩] none "add two salt" "" false []).billCart
        l data = .ok (cart2, l2) → OneLinePerProduct cart2) :=
  one_line_per_product_preserved
    ⟨[⟨some (.str "p1"), "Maggi", 2, 30⟩], none, "add two salt", .blank, []⟩
    ⟨[⟨some (.str "p1"), "Maggi", 2, 30⟩], none, "add two salt", "", false, []⟩
    (.json ⟨"Added", some "add",
      some [⟨some (.str "p2"), "Salt", 1, 20⟩, ⟨some (.str "p2"), "Salt", 1, 20⟩], none, none⟩)
    (by decide) (by decide)

/-! ### The branches of the two reconcilers on the store -/

theorem handleServerResponseRef_add (s : PageStore) (data : ParsedReply) (delta : Ref)
    (hact : data.action_type = some "add") (hdelta : data.cart = some delta) :
    handleServerResponseRef s data = .ok { s with
      heap := (s.heap.arr delta).foldl (fun h newItem => addNewItemRef h s.currentCart newItem)
        s.heap } := by
  unfold handleServerResponseRef
  rw [if_pos hact, hdelta]

theorem handleServerResponseRef_remove (s : PageStore) (data : ParsedReply) (delta : Ref)
    (hact : data.action_type = some "remove") (hdelta : data.cart = some delta) :
    handleServerResponseRef s data = .ok
      { heap := (s.heap.newArray ((s.heap.arr s.currentCart).filter (fun i =>
          !((s.heap.arr delta).map (fun i => (s.heap.obj i).product_id)).contains
            (s.heap.obj i).product_id))).1
        currentCart := s.heap.arrays.length } := by
  have h1 : data.action_type ≠ some "add" := by rw [hact]; decide
  unfold handleServerResponseRef
  rw [if_neg h1, if_pos hact, hdelta]
  rfl

theorem handleServerResponseRef_checkout (s : PageStore) (data : ParsedReply)
    (hact : data.action_type = some "checkout") :
    handleServerResponseRef s data = .ok
      { heap := (s.heap.newArray []).1, currentCart := s.heap.arrays.length } := by
  have h1 : data.action_type ≠ some "add" := by rw [hact]; decide
  have h2 : data.action_type ≠ some "remove" := by rw [hact]; decide
  unfold handleServerResponseRef
  rw [if_neg h1, if_neg h2, if_pos hact]
  rfl

theorem handleServerResponseRef_other (s : PageStore) (data : ParsedReply)
    (h1 : data.action_type ≠ some "add") (h2 : data.action_type ≠ some "remove")
    (h3 : data.action_type ≠ some "checkout") :
    handleServerResponseRef s data = .ok s := by
  unfold handleServerResponseRef
  rw [if_neg h1, if_neg h2, if_neg h3]

theorem handleServerResponseRef_no_cart (s : PageStore) (data : ParsedReply)
    (hact : data.action_type = some "add" ∨ data.action_type = some "remove")
    (hdelta : data.cart = none) :
    handleServerResponseRef s data = .error (.typeError "data.cart is undefined") := by
  unfold handleServerResponseRef
  rcases hact with hact | hact
  · rw [if_pos hact, hdelta]
  · have h1 : data.action_type ≠ some "add" := by rw [hact]; decide
    rw [if_neg h1, if_pos hact, hdelta]

theorem handleCartActionsRef_add (t : AppStore) (data : ParsedReply) (delta : Ref)
    (hact : data.action_type = some "add") (hdelta : data.cart = some delta) :
    handleCartActionsRef t data = .ok
      { heap := (t.heap.arr delta).foldl
          (fun h newItem => addNewItemRef h t.heap.arrays.length newItem)
          (t.heap.newArray (t.heap.arr t.billCart)).1
        billCart := t.heap.arrays.length } := by
  unfold handleCartActionsRef
  rw [if_pos hact, hdelta]
  rfl

theorem handleCartActionsRef_remove (t : AppStore) (data : ParsedReply) (delta : Ref)
    (hact : data.action_type = some "remove") (hdelta : data.cart = some delta) :
    handleCartActionsRef t data = .ok
      { heap := (t.heap.newArray ((t.heap.arr t.billCart).filter (fun i =>
          !((t.heap.arr delta).map (fun i => (t.heap.obj i).product_id)).contains
            (t.heap.obj i).product_id))).1
        billCart := t.heap.arrays.length } := by
  have h1 : data.action_type ≠ some "add" := by rw [hact]; decide
  unfold handleCartActionsRef
  rw [if_neg h1, if_pos hact, hdelta]
  rfl

theorem handleCartActionsRef_checkout (t : AppStore) (data : ParsedReply)
    (hact : data.action_type = some "checkout") :
    handleCartActionsRef t data = .ok
      { heap := (t.heap.newArray []).1, billCart := t.heap.arrays.length } := by
  have h1 : data.action_type ≠ some "add" := by rw [hact]; decide
  have h2 : data.action_type ≠ some "remove" := by rw [hact]; decide
  unfold handleCartActionsRef
  rw [if_neg h1, if_neg h2, if_pos hact]
  rfl

theorem handleCartActionsRef_other (t : AppStore) (data : ParsedReply)
    (h1 : data.action_type ≠ some "add") (h2 : data.action_type ≠ some "remove")
    (h3 : data.action_type ≠ some "checkout") :
    handleCartActionsRef t data = .ok t := by
  unfold handleCartActionsRef
  rw [if_neg h1, if_neg h2, if_neg h3]

theorem handleCartActionsRef_no_cart (t : AppStore) (data : ParsedReply)
    (hact : data.action_type = some "add" ∨ data.action_type = some "remove")
    (hdelta : data.cart = none) :
    handleCartActionsRef t data = .error (.typeError "data.cart is undefined") := by
  unfold handleCartActionsRef
  rcases hact with hact | hact
  · rw [if_pos hact, hdelta]
  · have h1 : data.action_type ≠ some "add" := by rw [hact]; decide
    rw [if_neg h1, if_pos hact, hdelta]

/-! ## Claims on mutation of the prior cart -/

/-- C6, refuted. Cart `[(p1, 2, 30)]` held in array `0`, reply `add [(p1, 1, 15)]`: in both front
ends the line object of the prior cart is updated in place, so the lines of the previously held
array read `(p1, 3, 45)` afterwards; in `script.js` the cart after the reply is moreover the same
array, not a new one. -/
theorem add_mutates_prior_cart :
    (∃ t2 : AppStore,
      handleCartActionsRef
        ⟨⟨[⟨some (.str "p1"), "Maggi", 2, 30⟩, ⟨some (.str "p1"), "Maggi", 1, 15⟩],
          [[0], [1]]⟩, 0⟩ ⟨some "add", some 1⟩ = .ok t2 ∧
      (Heap.mk [⟨some (.str "p1"), "Maggi", 2, 30⟩, ⟨some (.str "p1"), "Maggi", 1, 15⟩]
        [[0], [1]]).lines 0 = [⟨some (.str "p1"), "Maggi", 2, 30⟩] ∧
      t2.heap.lines 0 = [⟨some (.str "p1"), "Maggi", 3, 45⟩]) ∧
    (∃ s2 : PageStore,
      handleServerResponseRef
        ⟨⟨[⟨some (.str "p1"), "Maggi", 2, 30⟩, ⟨some (.str "p1"), "Maggi", 1, 15⟩],
          [[0], [1]]⟩, 0⟩ ⟨some "add", some 1⟩ = .ok s2 ∧
      s2.heap.lines 0 = [⟨some (.str "p1"), "Maggi", 3, 45⟩] ∧
      s2.currentCart = 0) :=
  ⟨⟨_, rfl, by decide, by decide⟩, ⟨_, rfl, by decide, by decide⟩⟩

/-- C6, amended. A reply that is not an `add` modifies no line object and no existing array in
either front end, and `remove` and `checkout` put the result in a newly allocated array. For an
`add` reply, `App.jsx` puts the result in a newly allocated array and leaves the sequence of
lines of the prior array as it was, `script.js` keeps the same array and only appends to it, and
in both every line object whose product id is not named in the delta is unchanged. A reply is
rejected only when it is an `add` or `remove` without a delta. -/
theorem prior_cart_after_reply (s : PageStore) (t : AppStore) (data : ParsedReply)
    (ht : t.billCart < t.heap.arrays.length) :
    ((∃ s2, handleServerResponseRef s data = .ok s2) ∨
      (data.cart = none ∧
        (data.action_type = some "add" ∨ data.action_type = some "remove"))) ∧
    ((∃ t2, handleCartActionsRef t data = .ok t2) ∨
      (data.cart = none ∧
        (data.action_type = some "add" ∨ data.action_type = some "remove"))) ∧
    (∀ s2, handleServerResponseRef s data = .ok s2 →
      (data.action_type ≠ some "add" →
        s2.heap.objects = s.heap.objects ∧
        ∀ a, a < s.heap.arrays.length → s2.heap.arr a = s.heap.arr a) ∧
      (data.action_type = some "remove" ∨ data.action_type = some "checkout" →
        s2.currentCart = s.heap.arrays.length) ∧
      (data.action_type = some "add" →
        s2.currentCart = s.currentCart ∧
        List.IsPrefix (s.heap.arr s.currentCart) (s2.heap.arr s.currentCart) ∧
        ∀ delta r, data.cart = some delta →
          (∀ n ∈ s.heap.arr delta, (s.heap.obj r).product_id ≠ (s.heap.obj n).product_id) →
          s2.heap.obj r = s.heap.obj r)) ∧
    (∀ t2, handleCartActionsRef t data = .ok t2 →
      (data.action_type ≠ some "add" →
        t2.heap.objects = t.heap.objects ∧
        ∀ a, a < t.heap.arrays.length → t2.heap.arr a = t.heap.arr a) ∧
      (data.action_type = some "remove" ∨ data.action_type = some "checkout" →
        t2.billCart = t.heap.arrays.length) ∧
      (data.action_type = some "add" →
        t2.billCart = t.heap.arrays.length ∧
        t2.heap.arr t.billCart = t.heap.arr t.billCart ∧
        ∀ delta r, data.cart = some delta →
          (∀ n ∈ t.heap.arr delta, (t.heap.obj r).product_id ≠ (t.heap.obj n).product_id) →
          t2.heap.obj r = t.heap.obj r)) := by
  have hra : some "remove" ≠ some "add" := by decide
  have hca : some "checkout" ≠ some "add" := by decide
  have hcr : some "checkout" ≠ some "remove" := by decide
  by_cases h1 : data.action_type = some "add"
  · have e1 : data.action_type ≠ some "remove" := by rw [h1]; exact hra.symm
    have e2 : data.action_type ≠ some "checkout" := by rw [h1]; exact hca.symm
    have no : ¬ (data.action_type = some "remove" ∨ data.action_type = some "checkout") := by
      rintro (ho | ho)
      · exact e1 ho
      · exact e2 ho
    cases hc : data.cart with
    | none =>
      refine ⟨Or.inr ⟨rfl, Or.inl h1⟩, Or.inr ⟨rfl, Or.inl h1⟩, ?_, ?_⟩
      · intro s2 h
        rw [handleServerResponseRef_no_cart s data (Or.inl h1) hc] at h
        cases h
      · intro t2 h
        rw [handleCartActionsRef_no_cart t data (Or.inl h1) hc] at h
        cases h
    | some delta =>
      have hs := handleServerResponseRef_add s data delta h1 hc
      have hta := handleCartActionsRef_add t data delta h1 hc
      refine ⟨Or.inl ⟨_, hs⟩, Or.inl ⟨_, hta⟩, ?_, ?_⟩
      · intro s2 h
        rw [hs] at h
        cases h
        refine ⟨fun hn => absurd h1 hn, fun ho => absurd ho no, fun _ => ⟨rfl, ?_, ?_⟩⟩
        · exact forEach_arr_self _ _ _
        · intro d r hd hne
          cases hd
          exact forEach_obj_other _ _ _ _ hne
      · intro t2 h
        rw [hta] at h
        cases h
        refine ⟨fun hn => absurd h1 hn, fun ho => absurd ho no, fun _ => ⟨rfl, ?_, ?_⟩⟩
        · exact (forEach_arr_ne _ _ _ _ (Nat.ne_of_lt ht)).trans
            (Heap.arr_newArray_old _ _ _ ht)
        · intro d r hd hne
          cases hd
          exact forEach_obj_other _ (t.heap.newArray (t.heap.arr t.billCart)).1 _ _ hne
  · by_cases h2 : data.action_type = some "remove"
    · cases hc : data.cart with
      | none =>
        refine ⟨Or.inr ⟨rfl, Or.inr h2⟩, Or.inr ⟨rfl, Or.inr h2⟩, ?_, ?_⟩
        · intro s2 h
          rw [handleServerResponseRef_no_cart s data (Or.inr h2) hc] at h
          cases h
        · intro t2 h
          rw [handleCartActionsRef_no_cart t data (Or.inr h2) hc] at h
          cases h
      | some delta =>
        have hs := handleServerResponseRef_remove s data delta h2 hc
        have hta := handleCartActionsRef_remove t data delta h2 hc
        refine ⟨Or.inl ⟨_, hs⟩, Or.inl ⟨_, hta⟩, ?_, ?_⟩
        · intro s2 h
          rw [hs] at h
          cases h
          exact ⟨fun _ => ⟨rfl, fun a ha => Heap.arr_newArray_old _ _ _ ha⟩, fun _ => rfl,
            fun hn => absurd hn h1⟩
        · intro t2 h
          rw [hta] at h
          cases h
          exact ⟨fun _ => ⟨rfl, fun a ha => Heap.arr_newArray_old _ _ _ ha⟩, fun _ => rfl,
            fun hn => absurd hn h1⟩
    · by_cases h3 : data.action_type = some "checkout"
      · have hs := handleServerResponseRef_checkout s data h3
        have hta := handleCartActionsRef_checkout t data h3
        refine ⟨Or.inl ⟨_, hs⟩, Or.inl ⟨_, hta⟩, ?_, ?_⟩
        · intro s2 h
          rw [hs] at h
          cases h
          exact ⟨fun _ => ⟨rfl, fun a ha => Heap.arr_newArray_old _ _ _ ha⟩, fun _ => rfl,
            fun hn => absurd hn h1⟩
        · intro t2 h
          rw [hta] at h
          cases h
          exact ⟨fun _ => ⟨rfl, fun a ha => Heap.arr_newArray_old _ _ _ ha⟩, fun _ => rfl,
            fun hn => absurd hn h1⟩
      · have no : ¬ (data.action_type = some "remove" ∨ data.action_type = some "checkout") := by
          rintro (ho | ho)
          · exact h2 ho
          · exact h3 ho
        have hs := handleServerResponseRef_other s data h1 h2 h3
        have hta := handleCartActionsRef_other t data h1 h2 h3
        refine ⟨Or.inl ⟨_, hs⟩, Or.inl ⟨_, hta⟩, ?_, ?_⟩
        · intro s2 h
          rw [hs] at h
          cases h
          exact ⟨fun _ => ⟨rfl, fun a _ => rfl⟩, fun ho => absurd ho no,
            fun hn => absurd hn h1⟩
        · intro t2 h
          rw [hta] at h
          cases h
          exact ⟨fun _ => ⟨rfl, fun a _ => rfl⟩, fun ho => absurd ho no,
            fun hn => absurd hn h1⟩

/-- C6 as amended, at the example store with the `add` reply whose delta is array `1`. -/
theorem prior_cart_after_reply_witness :
    (0 : Nat) < exampleHeap.arrays.length ∧
    ((∃ s2, handleServerResponseRef ⟨exampleHeap, 0⟩ ⟨some "add", some 1⟩ = .ok s2) ∨
      ((ParsedReply.mk (some "add") (some 1)).cart = none ∧
        ((ParsedReply.mk (some "add") (some 1)).action_type = some "add" ∨
          (ParsedReply.mk (some "add") (some 1)).action_type = some "remove"))) ∧
    (∀ t2, handleCartActionsRef ⟨exampleHeap, 0⟩ ⟨some "add", some 1⟩ = .ok t2 →
      t2.billCart = exampleHeap.arrays.length ∧
      t2.heap.arr 0 = exampleHeap.arr 0) :=
  ⟨by decide,
    (prior_cart_after_reply ⟨exampleHeap, 0⟩ ⟨exampleHeap, 0⟩ ⟨some "add", some 1⟩
      (by decide)).1,
    fun t2 h =>
      ⟨(((prior_cart_after_reply ⟨exampleHeap, 0⟩ ⟨exampleHeap, 0⟩ ⟨some "add", some 1⟩
          (by decide)).2.2.2 t2 h).2.2 rfl).1,
        (((prior_cart_after_reply ⟨exampleHeap, 0⟩ ⟨exampleHeap, 0⟩ ⟨some "add", some 1⟩
          (by decide)).2.2.2 t2 h).2.2 rfl).2.1⟩⟩

/-! ## Claims on validation, the transaction id and failures -/

theorem generateBtnClick_transcriptBox (pg : Page) (net : FetchResult) :
    (generateBtnClick pg net).transcriptBox = pg.transcriptBox := by
  by_cases h : jsTrim pg.transcriptBox = ""
  · rw [generateBtnClick_empty pg net h]
  · cases net with
    | rejected m => rw [(generateBtnClick_failed pg m h).1]
    | badBody m => rw [(generateBtnClick_failed pg m h).2]
    | json data =>
      simp only [generateBtnClick, h, if_false]
      split_ifs <;>
        (cases hh : handleServerResponse pg.currentCart data <;> simp [Page.catchError, hh])

theorem processVoiceCommand_transcript (st : App) (net : FetchResult) :
    (processVoiceCommand st net).transcript = st.transcript := by
  by_cases h : st.transcript = ""
  · rw [processVoiceCommand_empty st net h]
  · cases net with
    | rejected m => rw [(processVoiceCommand_failed st m h).1]
    | badBody m => rw [(processVoiceCommand_failed st m h).2]
    | json data =>
      simp only [processVoiceCommand, h, if_false]
      split_ifs <;>
        (cases hh : handleCartActions st.billCart st.lastTxnId data <;>
          simp [App.catchError, hh])

/-- The transaction id after a processed reply (`App.jsx`). -/
theorem processVoiceCommand_lastTxnId (st : App) (r : Reply) (h : st.transcript ≠ "") :
    (processVoiceCommand st (.json r)).lastTxnId =
      (if r.action_type = some "checkout" ∧ truthy r.transaction_id = true
        then r.transaction_id else st.lastTxnId) := by
  rw [(processVoiceCommand_json st r h).2.1]
  cases hr : handleCartActions st.billCart st.lastTxnId r with
  | ok res => exact handleCartActions_txn _ res.1 _ res.2 r hr
  | error e =>
    have hne : r.action_type ≠ some "checkout" := by
      intro hc
      rw [handleCartActions_checkout _ _ r hc] at hr
      cases hr
    simp [hne]

/-- C8. After a reply `r` is processed, the stored transaction id is `r`'s transaction id when
`r` is a `checkout` with a present, non-empty transaction id, and the previously stored id
otherwise, in both front ends. In particular a `checkout` without transaction id keeps the
stored id, and of two recording checkouts in a row the id of the second is stored. -/
theorem transaction_id_recorded_on_checkout_only (pg : Page) (st : App) (r : Reply)
    (hpg : jsTrim pg.transcriptBox ≠ "") (hst : st.transcript ≠ "") :
    (generateBtnClick pg (.json r)).lastTransactionId =
      (if r.action_type = some "checkout" ∧ truthy r.transaction_id = true
        then r.transaction_id else pg.lastTransactionId) ∧
    (processVoiceCommand st (.json r)).lastTxnId =
      (if r.action_type = some "checkout" ∧ truthy r.transaction_id = true
        then r.transaction_id else st.lastTxnId) ∧
    (r.action_type = some "checkout" → r.transaction_id = none →
      (generateBtnClick pg (.json r)).lastTransactionId = pg.lastTransactionId ∧
      (processVoiceCommand st (.json r)).lastTxnId = st.lastTxnId) ∧
    (∀ r2 : Reply, r2.action_type = some "checkout" → truthy r2.transaction_id = true →
      (generateBtnClick (generateBtnClick pg (.json r)) (.json r2)).lastTransactionId
        = r2.transaction_id ∧
      (processVoiceCommand (processVoiceCommand st (.json r)) (.json r2)).lastTxnId
        = r2.transaction_id) := by
  have h1 := (generateBtnClick_json pg r hpg).2.1
  have h2 := processVoiceCommand_lastTxnId st r hst
  refine ⟨h1, h2, ?_, ?_⟩
  · intro _ hnone
    rw [h1, h2, hnone]
    simp [truthy]
  · intro r2 hact htid
    have hpg2 : jsTrim (generateBtnClick pg (.json r)).transcriptBox ≠ "" := by
      rw [generateBtnClick_transcriptBox]; exact hpg
    have hst2 : (processVoiceCommand st (.json r)).transcript ≠ "" := by
      rw [processVoiceCommand_transcript]; exact hst
    rw [(generateBtnClick_json _ r2 hpg2).2.1, processVoiceCommand_lastTxnId _ r2 hst2]
    simp [hact, htid]

/-- C8, with `T1` stored and a `checkout` reply that carries no transaction id. -/
theorem transaction_id_recorded_on_checkout_only_witness :
    (generateBtnClick ⟨[], some "T1", "checkout", .blank, []⟩
      (.json ⟨"Done", some "checkout", none, none, none⟩)).lastTransactionId = some "T1" ∧
    (processVoiceCommand ⟨[], some "T1", "checkout", "", false, []⟩
      (.json ⟨"Done", some "checkout", none, none, none⟩)).lastTxnId = some "T1" ∧
    (generateBtnClick (generateBtnClick ⟨[], some "T1", "checkout", .blank, []⟩
      (.json ⟨"Done", some "checkout", none, none, none⟩))
      (.json ⟨"Bill", some "checkout", none, some "T2", none⟩)).lastTransactionId
        = some "T2" ∧
    (processVoiceCommand (processVoiceCommand ⟨[], some "T1", "checkout", "", false, []⟩
      (.json ⟨"Done", some "checkout", none, none, none⟩))
      (.json ⟨"Bill", some "checkout", none, some "T2", none⟩)).lastTxnId = some "T2" :=
  ⟨((transaction_id_recorded_on_checkout_only ⟨[], some "T1", "checkout", .blank, []⟩
      ⟨[], some "T1", "checkout", "", false, []⟩ ⟨"Done", some "checkout", none, none, none⟩
      (by decide) (by decide)).2.2.1 rfl rfl).1,
    ((transaction_id_recorded_on_checkout_only ⟨[], some "T1", "checkout", .blank, []⟩
      ⟨[], some "T1", "checkout", "", false, []⟩ ⟨"Done", some "checkout", none, none, none⟩
      (by decide) (by decide)).2.2.1 rfl rfl).2,
    ((transaction_id_recorded_on_checkout_only ⟨[], some "T1", "checkout", .blank, []⟩
      ⟨[], some "T1", "checkout", "", false, []⟩ ⟨"Done", some "checkout", none, none, none⟩
      (by decide) (by decide)).2.2.2 ⟨"Bill", some "checkout", none, some "T2", none⟩
        rfl (by decide)).1,
    ((transaction_id_recorded_on_checkout_only ⟨[], some "T1", "checkout", .blank, []⟩
      ⟨[], some "T1", "checkout", "", false, []⟩ ⟨"Done", some "checkout", none, none, none⟩
      (by decide) (by decide)).2.2.2 ⟨"Bill", some "checkout", none, some "T2", none⟩
        rfl (by decide)).2⟩

/-- C9. When the dispatch of a non-empty transcript fails, because `fetch` rejects or because
parsing the reply fails, the cart and the last transaction id are what they were before the
submit, and the message shown is an error notice, in both front ends. -/
theorem failed_dispatch_keeps_state (pg : Page) (st : App) (m : String)
    (hpg : jsTrim pg.transcriptBox ≠ "") (hst : st.transcript ≠ "") :
    ((generateBtnClick pg (.rejected m)).currentCart = pg.currentCart ∧
      (generateBtnClick pg (.rejected m)).lastTransactionId = pg.lastTransactionId ∧
      (generateBtnClick pg (.rejected m)).output = .errorNotice m) ∧
    ((generateBtnClick pg (.badBody m)).currentCart = pg.currentCart ∧
      (generateBtnClick pg (.badBody m)).lastTransactionId = pg.lastTransactionId ∧
      (generateBtnClick pg (.badBody m)).output = .errorNotice m) ∧
    ((processVoiceCommand st (.rejected m)).billCart = st.billCart ∧
      (processVoiceCommand st (.rejected m)).lastTxnId = st.lastTxnId ∧
      (processVoiceCommand st (.rejected m)).aiResponse = "Error connecting to server.") ∧
    ((processVoiceCommand st (.badBody m)).billCart = st.billCart ∧
      (processVoiceCommand st (.badBody m)).lastTxnId = st.lastTxnId ∧
      (processVoiceCommand st (.badBody m)).aiResponse = "Error connecting to server.") := by
  rw [(generateBtnClick_failed pg m hpg).1, (generateBtnClick_failed pg m hpg).2,
    (processVoiceCommand_failed st m hst).1, (processVoiceCommand_failed st m hst).2]
  exact ⟨⟨rfl, rfl, rfl⟩, ⟨rfl, rfl, rfl⟩, ⟨rfl, rfl, rfl⟩, ⟨rfl, rfl, rfl⟩⟩

/-- C9, with a cart of one line and `TXN123` stored. -/
theorem failed_dispatch_keeps_state_witness :
    ((generateBtnClick ⟨[⟨some (.str "p1"), "Maggi", 2, 30⟩], some "TXN123", "add salt",
        .blank, []⟩ (.rejected "Failed to fetch")).currentCart
        = [⟨some (.str "p1"), "Maggi", 2, 30⟩] ∧
      (generateBtnClick ⟨[⟨some (.str "p1"), "Maggi", 2, 30⟩], some "TXN123", "add salt",
        .blank, []⟩ (.rejected "Failed to fetch")).lastTransactionId = some "TXN123" ∧
      (generateBtnClick ⟨[⟨some (.str "p1"), "Maggi", 2, 30⟩], some "TXN123", "add salt",
        .blank, []⟩ (.rejected "Failed to fetch")).output = .errorNotice "Failed to fetch") ∧
    ((processVoiceCommand ⟨[⟨some (.str "p1"), "Maggi", 2, 30⟩], some "TXN123", "add salt",
        "", false, []⟩ (.badBody "Unexpected token")).billCart
        = [⟨some (.str "p1"), "Maggi", 2, 30⟩] ∧
      (processVoiceCommand ⟨[⟨some (.str "p1"), "Maggi", 2, 30⟩], some "TXN123", "add salt",
        "", false, []⟩ (.badBody "Unexpected token")).lastTxnId = some "TXN123" ∧
      (processVoiceCommand ⟨[⟨some (.str "p1"), "Maggi", 2, 30⟩], some "TXN123", "add salt",
        "", false, []⟩ (.badBody "Unexpected token")).aiResponse
        = "Error connecting to server.") :=
  ⟨(failed_dispatch_keeps_state
      ⟨[⟨some (.str "p1"), "Maggi", 2, 30⟩], some "TXN123", "add salt", .blank, []⟩
      ⟨[⟨some (.str "p1"), "Maggi", 2, 30⟩], some "TXN123", "add salt", "", false, []⟩
      "Failed to fetch" (by decide) (by decide)).1,
    (failed_dispatch_keeps_state
      ⟨[⟨some (.str "p1"), "Maggi", 2, 30⟩], some "TXN123", "add salt", .blank, []⟩
      ⟨[⟨some (.str "p1"), "Maggi", 2, 30⟩], some "TXN123", "add salt", "", false, []⟩
      "Unexpected token" (by decide) (by decide)).2.2.2⟩

/-- C10. A reply whose action type is none of `add`, `remove` and `checkout` (another string, or
no action type) is not rejected and changes neither the cart nor the stored transaction id in
either front end; the reply's message is shown. -/
theorem unknown_action_changes_nothing (pg : Page) (st : App) (r : Reply)
    (hpg : jsTrim pg.transcriptBox ≠ "") (hst : st.transcript ≠ "")
    (h1 : r.action_type ≠ some "add") (h2 : r.action_type ≠ some "remove")
    (h3 : r.action_type ≠ some "checkout") :
    handleServerResponse pg.currentCart r = .ok pg.currentCart ∧
    handleCartActions st.billCart st.lastTxnId r = .ok (st.billCart, st.lastTxnId) ∧
    (generateBtnClick pg (.json r)).currentCart = pg.currentCart ∧
    (generateBtnClick pg (.json r)).lastTransactionId = pg.lastTransactionId ∧
    (generateBtnClick pg (.json r)).output = .botMessage r.message ∧
    (processVoiceCommand st (.json r)).billCart = st.billCart ∧
    (processVoiceCommand st (.json r)).lastTxnId = st.lastTxnId ∧
    (processVoiceCommand st (.json r)).aiResponse = r.message := by
  have hs := handleServerResponse_other pg.currentCart r h1 h2 h3
  have ha := handleCartActions_other st.billCart st.lastTxnId r h1 h2 h3
  have hg := generateBtnClick_json pg r hpg
  have hp := processVoiceCommand_json st r hst
  rw [hs] at hg
  rw [ha] at hp
  refine ⟨hs, ha, hg.1, ?_, hg.2.2, hp.1, hp.2.1, hp.2.2⟩
  rw [hg.2.1]
  simp [h3]

/-- C10, with the action type `none` of a clarifying reply. -/
theorem unknown_action_changes_nothing_witness :
    handleServerResponse
      (Page.mk [⟨some (.str "p1"), "Maggi", 2, 30⟩] (some "T1") "hello" .blank []).currentCart
      ⟨"Say again?", some "none", none, some "T9", none⟩
      = .ok (Page.mk [⟨some (.str "p1"), "Maggi", 2, 30⟩] (some "T1") "hello" .blank
          []).currentCart ∧
    (generateBtnClick ⟨[⟨some (.str "p1"), "Maggi", 2, 30⟩], some "T1", "hello", .blank, []⟩
      (.json ⟨"Say again?", some "none", none, some "T9", none⟩)).output
      = .botMessage "Say again?" ∧
    (processVoiceCommand ⟨[⟨some (.str "p1"), "Maggi", 2, 30⟩], some "T1", "hello", "", false,
      []⟩ (.json ⟨"Say again?", some "none", none, some "T9", none⟩)).lastTxnId = some "T1" :=
  ⟨(unknown_action_changes_nothing
      ⟨[⟨some (.str "p1"), "Maggi", 2, 30⟩], some "T1", "hello", .blank, []⟩
      ⟨[⟨some (.str "p1"), "Maggi", 2, 30⟩], some "T1", "hello", "", false, []⟩
      ⟨"Say again?", some "none", none, some "T9", none⟩
      (by decide) (by decide) (by decide) (by decide) (by decide)).1,
    (unknown_action_changes_nothing
      ⟨[⟨some (.str "p1"), "Maggi", 2, 30⟩], some "T1", "hello", .blank, []⟩
      ⟨[⟨some (.str "p1"), "Maggi", 2, 30⟩], some "T1", "hello", "", false, []⟩
      ⟨"Say again?", some "none", none, some "T9", none⟩
      (by decide) (by decide) (by decide) (by decide) (by decide)).2.2.2.2.1,
    (unknown_action_changes_nothing
      ⟨[⟨some (.str "p1"), "Maggi", 2, 30⟩], some "T1", "hello", .blank, []⟩
      ⟨[⟨some (.str "p1"), "Maggi", 2, 30⟩], some "T1", "hello", "", false, []⟩
      ⟨"Say again?", some "none", none, some "T9", none⟩
      (by decide) (by decide) (by decide) (by decide) (by decide)).2.2.2.2.2.2.1⟩

/-! ## The value model is the view of the heap model

For a cart array of pairwise distinct valid references and a delta of pairwise distinct valid
references that are not in the cart (the objects a freshly parsed reply consists of), the lines
of the cart after the `forEach` on the store are the value-level `forEach` of the lines before. -/

theorem updateFound_map (p : Item → Bool) (F : Item → Item) (f : Ref → Item) (e : Ref)
    (l : List Ref) (hnd : l.Nodup) (hfind : l.find? (fun r => p (f r)) = some e) :
    updateFound p F (l.map f) = l.map (fun r => if r = e then F (f e) else f r) := by
  induction l with
  | nil => simp at hfind
  | cons r rest ih =>
    have hr : r ∉ rest ∧ rest.Nodup := by simpa using hnd
    by_cases hp : p (f r) = true
    · have he : r = e := by simpa [List.find?, hp] using hfind
      subst he
      simp only [List.map_cons, updateFound, hp, if_true]
      congr 1
      apply List.map_congr_left
      intro x hx
      have : x ≠ r := fun e => hr.1 (e ▸ hx)
      simp [this]
    · have hfind2 : rest.find? (fun r => p (f r)) = some e := by
        simpa [List.find?, hp] using hfind
      have hne : r ≠ e := by
        intro e2
        have := List.find?_some hfind2
        exact hp (e2 ▸ this)
      simp only [List.map_cons, updateFound, hp, hne, if_false]
      rw [ih hr.2 hfind2]
      simp

theorem addNewItemRef_obj_found (h : Heap) (c n existing r : Ref)
    (hfind : (h.arr c).find? (fun i => (h.obj i).product_id == (h.obj n).product_id)
      = some existing)
    (hlen : existing < h.objects.length) (hne : existing ≠ n) :
    (addNewItemRef h c n).obj r =
      if r = existing then (h.obj existing).accumulate (h.obj n) else h.obj r := by
  unfold addNewItemRef
  rw [hfind]
  by_cases hr : r = existing
  · subst hr
    simp only [if_true]
    rw [Heap.obj_setObj_self _ _ _ (by rw [Heap.objects_length_setObj]; exact hlen),
      Heap.obj_setObj_self _ _ _ hlen, Heap.obj_setObj_ne _ _ _ _ hne]
    rfl
  · rw [if_neg hr, Heap.obj_setObj_ne _ _ _ _ (Ne.symm hr),
      Heap.obj_setObj_ne _ _ _ _ (Ne.symm hr)]

theorem addNewItemRef_arr_found (h : Heap) (c n existing a : Ref)
    (hfind : (h.arr c).find? (fun i => (h.obj i).product_id == (h.obj n).product_id)
      = some existing) :
    (addNewItemRef h c n).arr a = h.arr a := by
  unfold addNewItemRef
  rw [hfind]
  rfl

theorem addNewItemRef_objects_length (h : Heap) (c n : Ref) :
    (addNewItemRef h c n).objects.length = h.objects.length := by
  unfold addNewItemRef
  split
  · simp [Heap.setObj]
  · rfl

/-- One `forEach` step on the store is one value-level step on the lines of the cart. -/
theorem addNewItemRef_lines (h : Heap) (c n : Ref) (hc : c < h.arrays.length)
    (hvalid : ∀ r ∈ h.arr c, r < h.objects.length) (hnd : (h.arr c).Nodup)
    (hn : n ∉ h.arr c) :
    (addNewItemRef h c n).lines c = addNewItem (h.lines c) (h.obj n) := by
  have hmap : (h.lines c).find? (fun i => i.product_id == (h.obj n).product_id)
      = ((h.arr c).find? (fun i => (h.obj i).product_id == (h.obj n).product_id)).map h.obj := by
    unfold Heap.lines
    rw [List.find?_map]
    rfl
  cases hfind : (h.arr c).find? (fun i => (h.obj i).product_id == (h.obj n).product_id) with
  | none =>
    rw [hfind] at hmap
    have e1 : addNewItemRef h c n = h.push c n := by
      unfold addNewItemRef; rw [hfind]
    have e2 : addNewItem (h.lines c) (h.obj n) = h.lines c ++ [h.obj n] := by
      unfold addNewItem; rw [hmap]; rfl
    rw [e1, e2]
    unfold Heap.lines
    rw [Heap.arr_push_self, if_pos hc, List.map_append]
    rfl
  | some existing =>
    rw [hfind] at hmap
    have hmem : existing ∈ h.arr c := List.mem_of_find?_eq_some hfind
    have hne : existing ≠ n := fun e => hn (e ▸ hmem)
    have e2 : addNewItem (h.lines c) (h.obj n) =
        updateFound (fun i => i.product_id == (h.obj n).product_id)
          (fun e => e.accumulate (h.obj n)) (h.lines c) := by
      unfold addNewItem; rw [hmap]; rfl
    rw [e2]
    unfold Heap.lines
    rw [addNewItemRef_arr_found h c n existing c hfind,
      updateFound_map _ _ _ existing _ hnd hfind]
    apply List.map_congr_left
    intro r _
    exact addNewItemRef_obj_found h c n existing r hfind (hvalid _ hmem) hne

/-- The `forEach` on the store computes the value-level `forEach` of the cart's lines. -/
theorem forEach_lines (ds : List Ref) (h : Heap) (c : Ref) (hc : c < h.arrays.length)
    (hvalid : ∀ r ∈ h.arr c, r < h.objects.length) (hnd : (h.arr c).Nodup)
    (hdvalid : ∀ r ∈ ds, r < h.objects.length)
    (hdnd : ds.Nodup) (hdisj : ∀ r ∈ ds, r ∉ h.arr c) :
    (ds.foldl (fun h newItem => addNewItemRef h c newItem) h).lines c
      = (ds.map h.obj).foldl addNewItem (h.lines c) := by
  induction ds generalizing h with
  | nil => rfl
  | cons n rest ih =>
    have hn : n ∉ rest ∧ rest.Nodup := by simpa using hdnd
    have hnc : n ∉ h.arr c := hdisj n (List.mem_cons_self _ _)
    have harr : (addNewItemRef h c n).arr c = h.arr c ∨
        (addNewItemRef h c n).arr c = h.arr c ++ [n] := by
      unfold addNewItemRef
      split
      · exact Or.inl rfl
      · rw [Heap.arr_push_self, if_pos hc]; exact Or.inr rfl
    have hrest : ∀ r ∈ rest, (addNewItemRef h c n).obj r = h.obj r := by
      intro r hr
      have hrc : r ∉ h.arr c := hdisj r (List.mem_cons_of_mem _ hr)
      cases hfind : (h.arr c).find?
          (fun i => (h.obj i).product_id == (h.obj n).product_id) with
      | none => unfold addNewItemRef; rw [hfind]; rfl
      | some existing =>
        have hmem : existing ∈ h.arr c := List.mem_of_find?_eq_some hfind
        have hre : existing ≠ r := fun e => hrc (e ▸ hmem)
        unfold addNewItemRef
        rw [hfind]
        exact (Heap.obj_setObj_ne _ _ _ _ hre).trans (Heap.obj_setObj_ne _ _ _ _ hre)
    rw [List.foldl_cons, List.map_cons, List.foldl_cons]
    rw [ih (addNewItemRef h c n) (by rw [addNewItemRef_arrays_length]; exact hc)]
    · rw [addNewItemRef_lines h c n hc hvalid hnd hnc, List.map_congr_left hrest]
    · intro r hr
      rw [addNewItemRef_objects_length]
      rcases harr with e | e
      · rw [e] at hr; exact hvalid r hr
      · rw [e] at hr
        rcases List.mem_append.1 hr with hr | hr
        · exact hvalid r hr
        · simp only [List.mem_singleton] at hr
          exact hr ▸ hdvalid n (List.mem_cons_self _ _)
    · rcases harr with e | e
      · rw [e]; exact hnd
      · rw [e]
        exact List.Nodup.append hnd (List.nodup_singleton _) (by
          intro a ha hb
          simp only [List.mem_singleton] at hb
          exact hnc (hb ▸ ha))
    · intro r hr
      rw [addNewItemRef_objects_length]
      exact hdvalid r (List.mem_cons_of_mem _ hr)
    · exact hn.2
    · intro r hr
      rcases harr with e | e
      · rw [e]; exact hdisj r (List.mem_cons_of_mem _ hr)
      · rw [e]
        intro hmem
        rcases List.mem_append.1 hmem with hmem | hmem
        · exact hdisj r (List.mem_cons_of_mem _ hr) hmem
        · simp only [List.mem_singleton] at hmem
          exact hn.1 (hmem ▸ hr)

theorem lines_filter (h : Heap) (l : List Ref) (q : Option ProductId → Bool) :
    (l.filter (fun i => q (h.obj i).product_id)).map h.obj
      = (l.map h.obj).filter (fun i => q i.product_id) := by
  rw [List.filter_map]
  rfl

theorem Heap.lines_newArray (h : Heap) (elems : List Ref) :
    (h.newArray elems).1.lines (h.newArray elems).2 = elems.map h.obj := by
  unfold Heap.lines
  rw [Heap.arr_newArray_new]
  rfl

/-- The function `handleServerResponse` on the store computes, on the lines of the cart, what the
value-level `handleServerResponse` computes. -/
theorem handleServerResponseRef_view (s : PageStore) (data : ParsedReply) (message : String)
    (transaction_id audio_base64 : Option String)
    (hwf : FreshReply s.heap s.currentCart data) :
    (handleServerResponseRef s data).map (fun s2 => s2.heap.lines s2.currentCart)
      = handleServerResponse (s.heap.lines s.currentCart)
          (data.view s.heap message transaction_id audio_base64) := by
  obtain ⟨hc, hvalid, hnd, hd⟩ := hwf
  by_cases h1 : data.action_type = some "add"
  · cases hcart : data.cart with
    | none =>
      rw [handleServerResponseRef_no_cart s data (Or.inl h1) hcart,
        handleServerResponse_no_cart _ _ (Or.inl h1) (by simp [ParsedReply.view, hcart])]
      rfl
    | some delta =>
      obtain ⟨_, hdv, hdn, hdj⟩ := hd delta hcart
      rw [handleServerResponseRef_add s data delta h1 hcart,
        handleServerResponse_add _ (s.heap.lines delta) _ h1
          (by simp [ParsedReply.view, hcart])]
      exact congrArg Except.ok
        (forEach_lines _ s.heap s.currentCart hc hvalid hnd hdv hdn hdj)
  · by_cases h2 : data.action_type = some "remove"
    · cases hcart : data.cart with
      | none =>
        rw [handleServerResponseRef_no_cart s data (Or.inr h2) hcart,
          handleServerResponse_no_cart _ _ (Or.inr h2) (by simp [ParsedReply.view, hcart])]
        rfl
      | some delta =>
        rw [handleServerResponseRef_remove s data delta h2 hcart,
          handleServerResponse_remove _ (s.heap.lines delta) _ h2
            (by simp [ParsedReply.view, hcart])]
        have e := Heap.lines_newArray s.heap ((s.heap.arr s.currentCart).filter (fun i =>
          !((s.heap.arr delta).map (fun i => (s.heap.obj i).product_id)).contains
            (s.heap.obj i).product_id))
        have e2 := lines_filter s.heap (s.heap.arr s.currentCart) (fun x =>
          !((s.heap.arr delta).map (fun i => (s.heap.obj i).product_id)).contains x)
        refine congrArg Except.ok (e.trans (e2.trans ?_))
        simp [Heap.lines, List.map_map, Function.comp_def]
    · by_cases h3 : data.action_type = some "checkout"
      · rw [handleServerResponseRef_checkout s data h3, handleServerResponse_checkout _ _ h3]
        exact congrArg Except.ok (Heap.lines_newArray s.heap [])
      · rw [handleServerResponseRef_other s data h1 h2 h3,
          handleServerResponse_other _ _ h1 h2 h3]
        rfl

/-- Step "3. Handle Cart Actions" on the store computes, on the lines of the cart, what the
value-level `handleCartActions` computes. -/
theorem handleCartActionsRef_view (t : AppStore) (data : ParsedReply) (message : String)
    (lastTxnId transaction_id audio_base64 : Option String)
    (hwf : FreshReply t.heap t.billCart data) :
    (handleCartActionsRef t data).map (fun t2 => t2.heap.lines t2.billCart)
      = (handleCartActions (t.heap.lines t.billCart) lastTxnId
          (data.view t.heap message transaction_id audio_base64)).map Prod.fst := by
  obtain ⟨hc, hvalid, hnd, hd⟩ := hwf
  by_cases h1 : data.action_type = some "add"
  · cases hcart : data.cart with
    | none =>
      rw [handleCartActionsRef_no_cart t data (Or.inl h1) hcart,
        handleCartActions_no_cart _ _ _ (Or.inl h1) (by simp [ParsedReply.view, hcart])]
      rfl
    | some delta =>
      obtain ⟨hdl, hdv, hdn, hdj⟩ := hd delta hcart
      rw [handleCartActionsRef_add t data delta h1 hcart,
        handleCartActions_add _ (t.heap.lines delta) _ _ h1
          (by simp [ParsedReply.view, hcart])]
      have hnew : (t.heap.newArray (t.heap.arr t.billCart)).1.arr t.heap.arrays.length
          = t.heap.arr t.billCart := Heap.arr_newArray_new t.heap _
      have hdelta : (t.heap.newArray (t.heap.arr t.billCart)).1.arr delta
          = t.heap.arr delta := Heap.arr_newArray_old t.heap _ delta hdl
      have hl := forEach_lines (t.heap.arr delta)
        (t.heap.newArray (t.heap.arr t.billCart)).1 t.heap.arrays.length
        (by simp [Heap.newArray]) (by rw [hnew]; exact hvalid) (by rw [hnew]; exact hnd)
        hdv hdn (by rw [hnew]; exact hdj)
      refine congrArg Except.ok (hl.trans ?_)
      simp only [Heap.lines, hnew]
      rfl
  · by_cases h2 : data.action_type = some "remove"
    · cases hcart : data.cart with
      | none =>
        rw [handleCartActionsRef_no_cart t data (Or.inr h2) hcart,
          handleCartActions_no_cart _ _ _ (Or.inr h2) (by simp [ParsedReply.view, hcart])]
        rfl
      | some delta =>
        rw [handleCartActionsRef_remove t data delta h2 hcart,
          handleCartActions_remove _ (t.heap.lines delta) _ _ h2
            (by simp [ParsedReply.view, hcart])]
        have e := Heap.lines_newArray t.heap ((t.heap.arr t.billCart).filter (fun i =>
          !((t.heap.arr delta).map (fun i => (t.heap.obj i).product_id)).contains
            (t.heap.obj i).product_id))
        have e2 := lines_filter t.heap (t.heap.arr t.billCart) (fun x =>
          !((t.heap.arr delta).map (fun i => (t.heap.obj i).product_id)).contains x)
        refine congrArg Except.ok (e.trans (e2.trans ?_))
        simp [Heap.lines, List.map_map, Function.comp_def]
    · by_cases h3 : data.action_type = some "checkout"
      · rw [handleCartActionsRef_checkout t data h3, handleCartActions_checkout _ _ _ h3]
        exact congrArg Except.ok (Heap.lines_newArray t.heap [])
      · rw [handleCartActionsRef_other t data h1 h2 h3,
          handleCartActions_other _ _ _ h1 h2 h3]
        rfl

/-- The example store is a cart with a freshly parsed reply. -/
theorem exampleHeap_fresh : FreshReply exampleHeap 0 ⟨some "add", some 1⟩ := by
  refine ⟨by decide, by decide, by decide, ?_⟩
  intro delta h
  cases h
  exact ⟨by decide, by decide, by decide, by decide⟩

/-! ## Claims on removal -/

/-- With one line per product id, the filter "id is not `p`" drops exactly the line of `p` when
there is one, and nothing otherwise. -/
theorem filter_ne_product (cart : List Item) (p : Option ProductId)
    (hinv : OneLinePerProduct cart) :
    (p ∈ ids cart →
      (cart.filter (fun l => decide (l.product_id ≠ p))).length + 1 = cart.length) ∧
    (p ∉ ids cart → cart.filter (fun l => decide (l.product_id ≠ p)) = cart) := by
  have hno : ∀ c : List Item, p ∉ ids c →
      c.filter (fun l => decide (l.product_id ≠ p)) = c := by
    intro c hc
    rw [List.filter_eq_self]
    intro l hl
    have : l.product_id ≠ p := fun e => hc (e ▸ List.mem_map_of_mem (fun i => i.product_id) hl)
    simpa using this
  refine ⟨?_, hno cart⟩
  induction cart with
  | nil => intro h; simp [ids] at h
  | cons i rest ih =>
    have hnd : i.product_id ∉ ids rest ∧ OneLinePerProduct rest := by
      simpa [OneLinePerProduct, ids] using hinv
    intro hmem
    by_cases hi : i.product_id = p
    · have hrest : p ∉ ids rest := hi ▸ hnd.1
      rw [List.filter_cons_of_neg (by simp [hi]), hno rest hrest]
      rfl
    · have hmem2 : p ∈ ids rest := by
        simp only [ids, List.map_cons, List.mem_cons] at hmem
        rcases hmem with h | h
        · exact absurd h.symm hi
        · exact h
      rw [List.filter_cons_of_pos (by simp [hi])]
      simp only [List.length_cons]
      rw [ih hnd.2 hmem2]

/-- A delta that names only `p` removes the lines whose id is `p`. -/
theorem remove_filter_single (cart delta : List Item) (p : Option ProductId)
    (hne : delta ≠ []) (hp : ∀ e ∈ delta, e.product_id = p) :
    cart.filter (fun l => decide (l.product_id ∉ ids delta))
      = cart.filter (fun l => decide (l.product_id ≠ p)) := by
  apply List.filter_congr
  intro l _
  have hiff : l.product_id ∈ ids delta ↔ l.product_id = p := by
    constructor
    · intro h
      rcases List.mem_map.1 h with ⟨e, he, hid⟩
      rw [← hid]; exact hp e he
    · intro h
      cases delta with
      | nil => exact absurd rfl hne
      | cons e rest =>
        rw [h, ← hp e (List.mem_cons_self _ _)]
        exact List.mem_map_of_mem (fun i : Item => i.product_id) (List.mem_cons_self e rest)
  simp [hiff]

/-- C11. For a cart `C` with at most one line per product id and a `remove` reply whose delta
names only `p`, both front ends produce `C` without the lines of `p`: the result has `|C|` or
`|C| - 1` lines (`|C| - 1` exactly when `C` has a line for `p`), every dropped line has id `p`,
the result is `C` itself when no line has id `p`, and applying the same reply to the result
changes nothing. A `remove` reply whose delta names every product id present in `C` yields the
empty cart. -/
theorem remove_one_product (cart delta : List Item) (p : Option ProductId) (data : Reply)
    (lastTxnId : Option String)
    (hinv : OneLinePerProduct cart)
    (hact : data.action_type = some "remove") (hdelta : data.cart = some delta)
    (hne : delta ≠ []) (hp : ∀ e ∈ delta, e.product_id = p) :
    (∃ cart2 : List Item,
      handleServerResponse cart data = .ok cart2 ∧
      handleCartActions cart lastTxnId data = .ok (cart2, lastTxnId) ∧
      cart2 = cart.filter (fun l => decide (l.product_id ≠ p)) ∧
      (cart2.length = cart.length ∨ cart2.length + 1 = cart.length) ∧
      (p ∈ ids cart → cart2.length + 1 = cart.length) ∧
      (∀ l ∈ cart, l ∉ cart2 → l.product_id = p) ∧
      (p ∉ ids cart → cart2 = cart) ∧
      handleServerResponse cart2 data = .ok cart2 ∧
      handleCartActions cart2 lastTxnId data = .ok (cart2, lastTxnId)) ∧
    (∀ (data2 : Reply) (delta2 : List Item),
      data2.action_type = some "remove" → data2.cart = some delta2 →
      (∀ x ∈ ids cart, x ∈ ids delta2) →
      handleServerResponse cart data2 = .ok [] ∧
      handleCartActions cart lastTxnId data2 = .ok ([], lastTxnId)) := by
  have hrun : ∀ c : List Item,
      handleServerResponse c data = .ok (c.filter (fun l => decide (l.product_id ≠ p))) ∧
      handleCartActions c lastTxnId data
        = .ok (c.filter (fun l => decide (l.product_id ≠ p)), lastTxnId) := by
    intro c
    rw [handleServerResponse_remove c delta data hact hdelta,
      handleCartActions_remove c delta lastTxnId data hact hdelta, remove_filter_eq,
      remove_filter_single c delta p hne hp]
    exact ⟨rfl, rfl⟩
  have hf := filter_ne_product cart p hinv
  have hagain : (cart.filter (fun l => decide (l.product_id ≠ p))).filter
      (fun l => decide (l.product_id ≠ p)) = cart.filter (fun l => decide (l.product_id ≠ p)) := by
    rw [List.filter_filter]
    simp
  refine ⟨⟨_, (hrun cart).1, (hrun cart).2, rfl, ?_, hf.1, ?_, hf.2, ?_, ?_⟩, ?_⟩
  · by_cases hmem : p ∈ ids cart
    · exact Or.inr (hf.1 hmem)
    · exact Or.inl (by rw [hf.2 hmem])
  · intro l hl hnot
    by_contra hid
    exact hnot (List.mem_filter.2 ⟨hl, by simpa using hid⟩)
  · have h := (hrun (cart.filter (fun l => decide (l.product_id ≠ p)))).1
    rw [hagain] at h
    exact h
  · have h := (hrun (cart.filter (fun l => decide (l.product_id ≠ p)))).2
    rw [hagain] at h
    exact h
  · intro data2 delta2 hact2 hdelta2 hall
    have hnil : cart.filter (fun l => decide (l.product_id ∉ ids delta2)) = [] := by
      rw [List.filter_eq_nil_iff]
      intro l hl
      have := hall _ (List.mem_map_of_mem (fun i : Item => i.product_id) hl)
      simpa using this
    rw [handleServerResponse_remove cart delta2 data2 hact2 hdelta2,
      handleCartActions_remove cart delta2 lastTxnId data2 hact2 hdelta2, remove_filter_eq, hnil]
    exact ⟨rfl, rfl⟩

/-- C11, at the cart `[p1, p2]` with a delta that names `p1`. -/
theorem remove_one_product_witness :
    (∃ cart2 : List Item,
      handleServerResponse
        [⟨some (.str "p1"), "Maggi", 2, 30⟩, ⟨some (.str "p2"), "Salt", 1, 20⟩]
        ⟨"Removed", some "remove", some [⟨some (.str "p1"), "", 0, 0⟩], none, none⟩
        = .ok cart2 ∧
      cart2 = [⟨some (.str "p2"), "Salt", 1, 20⟩] ∧
      handleServerResponse cart2
        ⟨"Removed", some "remove", some [⟨some (.str "p1"), "", 0, 0⟩], none, none⟩
        = .ok cart2) ∧
    handleCartActions
      [⟨some (.str "p1"), "Maggi", 2, 30⟩, ⟨some (.str "p2"), "Salt", 1, 20⟩] none
      ⟨"Emptied", some "remove",
        some [⟨some (.str "p2"), "", 0, 0⟩, ⟨some (.str "p1"), "", 0, 0⟩], none, none⟩
      = .ok ([], none) :=
  ⟨(remove_one_product
      [⟨some (.str "p1"), "Maggi", 2, 30⟩, ⟨some (.str "p2"), "Salt", 1, 20⟩]
      [⟨some (.str "p1"), "", 0, 0⟩] (some (.str "p1"))
      ⟨"Removed", some "remove", some [⟨some (.str "p1"), "", 0, 0⟩], none, none⟩ none
      (by decide) rfl rfl (by decide) (by decide)).1.elim
      (fun cart2 h => ⟨cart2, h.1, h.2.2.1.trans (by decide), h.2.2.2.2.2.2.2.1⟩),
    ((remove_one_product
      [⟨some (.str "p1"), "Maggi", 2, 30⟩, ⟨some (.str "p2"), "Salt", 1, 20⟩]
      [⟨some (.str "p1"), "", 0, 0⟩] (some (.str "p1"))
      ⟨"Removed", some "remove", some [⟨some (.str "p1"), "", 0, 0⟩], none, none⟩ none
      (by decide) rfl rfl (by decide) (by decide)).2
      ⟨"Emptied", some "remove",
        some [⟨some (.str "p2"), "", 0, 0⟩, ⟨some (.str "p1"), "", 0, 0⟩], none, none⟩
      [⟨some (.str "p2"), "", 0, 0⟩, ⟨some (.str "p1"), "", 0, 0⟩] rfl rfl (by decide)).2⟩

/-! ## Claims on the empty transcript, feedback and the order of steps -/

/-- In `script.js` a transcript that is empty after trimming makes the submit a no-op, and in
`App.jsx` the empty transcript does. -/
theorem empty_transcript_no_op (pg : Page) (st : App) (net : FetchResult)
    (hpg : jsTrim pg.transcriptBox = "") (hst : st.transcript = "") :
    generateBtnClick pg net = pg ∧ processVoiceCommand st net = st :=
  ⟨generateBtnClick_empty pg net hpg, processVoiceCommand_empty st net hst⟩

/-- C12, at the failing input: the transcript `" "` (one space) with a cart of one line and a
stored id. `script.js` does nothing, whatever the round trip would deliver. `App.jsx` sends the
request with the text `" "`; a reply changes the message shown and, here, empties the cart and
replaces the stored id, and a rejected request shows the error text. -/
theorem whitespace_transcript_dispatched_by_dashboard :
    jsTrim " " = "" ∧
    (∀ net : FetchResult,
      generateBtnClick ⟨[⟨some (.str "p1"), "Maggi", 2, 30⟩], some "T1", " ", .blank, []⟩ net
        = ⟨[⟨some (.str "p1"), "Maggi", 2, 30⟩], some "T1", " ", .blank, []⟩) ∧
    processVoiceCommand ⟨[⟨some (.str "p1"), "Maggi", 2, 30⟩], some "T1", " ", "", false, []⟩
      (.json ⟨"Bill ready", some "checkout", none, some "T2", none⟩)
      = ⟨[], some "T2", " ", "Bill ready", false,
          [Effect.fetch " " [(some (.str "p1"), 2)], Effect.reconcile,
            Effect.setTransactionId "T2", Effect.fetchData]⟩ ∧
    processVoiceCommand ⟨[⟨some (.str "p1"), "Maggi", 2, 30⟩], some "T1", " ", "", false, []⟩
      (.rejected "Failed to fetch")
      = ⟨[⟨some (.str "p1"), "Maggi", 2, 30⟩], some "T1", " ", "Error connecting to server.",
          false, [Effect.fetch " " [(some (.str "p1"), 2)]]⟩ :=
  ⟨by decide, fun net => generateBtnClick_empty _ net (by decide), by decide, by decide⟩

/-- The steps of a submit that received a parsed reply, in order (`script.js`). -/
theorem generateBtnClick_effects (pg : Page) (r : Reply) (hpg : jsTrim pg.transcriptBox ≠ "") :
    (generateBtnClick pg (.json r)).effects =
      pg.effects ++
      [Effect.fetch (jsTrim pg.transcriptBox)
        (pg.currentCart.map (fun item => (item.product_id, item.quantity)))] ++
      [if truthy r.audio_base64 = true then Effect.playServerAudio (r.audio_base64.getD "")
        else Effect.speakResponse r.message] ++
      (if r.action_type = some "checkout" ∧ truthy r.transaction_id = true
        then [Effect.setTransactionId (r.transaction_id.getD "")] else []) ++
      (match handleServerResponse pg.currentCart r with
        | .ok _ => [Effect.reconcile, Effect.renderCart]
        | .error _ => []) := by
  simp only [generateBtnClick, hpg, if_false]
  by_cases ha : truthy r.audio_base64 = true <;>
    by_cases ht : r.action_type = some "checkout" ∧ truthy r.transaction_id = true <;>
      (cases hh : handleServerResponse pg.currentCart r <;>
        simp [ha, ht, Page.catchError, hh])

/-- The steps of a submit that received a parsed reply, in order (`App.jsx`). -/
theorem processVoiceCommand_effects (st : App) (r : Reply) (hst : st.transcript ≠ "") :
    (processVoiceCommand st (.json r)).effects =
      st.effects ++
      [Effect.fetch st.transcript
        (st.billCart.map (fun item => (item.product_id, item.quantity)))] ++
      (if truthy r.audio_base64 = true then [Effect.playServerAudio (r.audio_base64.getD "")]
        else []) ++
      (match handleCartActions st.billCart st.lastTxnId r with
        | .ok _ =>
            [Effect.reconcile] ++
            (if r.action_type = some "checkout" ∧ truthy r.transaction_id = true
              then [Effect.setTransactionId (r.transaction_id.getD "")] else []) ++
            [Effect.fetchData]
        | .error _ => []) := by
  simp only [processVoiceCommand, hst, if_false]
  by_cases ha : truthy r.audio_base64 = true <;>
    by_cases ht : r.action_type = some "checkout" ∧ truthy r.transaction_id = true <;>
      (cases hh : handleCartActions st.billCart st.lastTxnId r <;>
        simp [ha, ht, App.catchError, hh])

/-- In `script.js` every processed reply is presented audibly: its audio payload is played when
it has one, and its message is synthesized as speech otherwise. -/
theorem script_feedback_always (pg : Page) (r : Reply) (hpg : jsTrim pg.transcriptBox ≠ "") :
    (truthy r.audio_base64 = true →
      Effect.playServerAudio (r.audio_base64.getD "") ∈ (generateBtnClick pg (.json r)).effects) ∧
    (truthy r.audio_base64 = false →
      Effect.speakResponse r.message ∈ (generateBtnClick pg (.json r)).effects) := by
  rw [generateBtnClick_effects pg r hpg]
  constructor
  · intro ha
    simp [ha]
  · intro ha
    simp [ha]

/-- C13, at the failing input: a successful reply without audio payload. `script.js` synthesizes
the message as speech; `App.jsx` shows the message but neither plays nor synthesizes anything. -/
theorem reply_without_audio_is_silent_in_dashboard :
    (generateBtnClick ⟨[], none, "hello", .blank, []⟩
      (.json ⟨"Say again?", some "none", none, none, none⟩)).effects
      = [Effect.fetch "hello" [], Effect.speakResponse "Say again?", Effect.reconcile,
          Effect.renderCart] ∧
    (processVoiceCommand ⟨[], none, "hello", "", false, []⟩
      (.json ⟨"Say again?", some "none", none, none, none⟩)).effects
      = [Effect.fetch "hello" [], Effect.reconcile, Effect.fetchData] ∧
    (processVoiceCommand ⟨[], none, "hello", "", false, []⟩
      (.json ⟨"Say again?", some "none", none, none, none⟩)).aiResponse = "Say again?" ∧
    (processVoiceCommand ⟨[], none, "hello", "", false, []⟩
      (.json ⟨"Say again?", some "none", none, none, some "QUJD"⟩)).effects
      = [Effect.fetch "hello" [], Effect.playServerAudio "QUJD", Effect.reconcile,
          Effect.fetchData] :=
  ⟨by decide, by decide, by decide, by decide⟩

/-- C14, refuted. A `checkout` reply with transaction id `TXN123`: `script.js` starts the speech
synthesis first, then records the id, then reconciles the cart; `App.jsx` (reply with an audio
payload) starts the playback first, then reconciles the cart, then records the id. -/
theorem feedback_starts_before_reconciliation :
    (generateBtnClick ⟨[⟨some (.str "p1"), "Maggi", 2, 30⟩], none, "checkout", .blank, []⟩
      (.json ⟨"Bill ready", some "checkout", none, some "TXN123", none⟩)).effects
      = [Effect.fetch "checkout" [(some (.str "p1"), 2)], Effect.speakResponse "Bill ready",
          Effect.setTransactionId "TXN123", Effect.reconcile, Effect.renderCart] ∧
    (processVoiceCommand ⟨[⟨some (.str "p1"), "Maggi", 2, 30⟩], none, "checkout", "", false,
      []⟩ (.json ⟨"Bill ready", some "checkout", none, some "TXN123", some "QUJD"⟩)).effects
      = [Effect.fetch "checkout" [(some (.str "p1"), 2)], Effect.playServerAudio "QUJD",
          Effect.reconcile, Effect.setTransactionId "TXN123", Effect.fetchData] :=
  ⟨by decide, by decide⟩

/-- C14, amended. In every successful dispatch the feedback is started first, before the cart
and the transaction id are updated. In `script.js` the steps after the request are: feedback
(playback of the audio payload, else speech synthesis), recording of the transaction id (for a
`checkout` with an id), cart reconciliation, rendering. In `App.jsx` they are: playback of the
audio payload (when there is one), cart reconciliation, recording of the transaction id (for a
`checkout` with an id), refresh of the dashboard data. -/
theorem feedback_then_state_updates (pg : Page) (st : App) (r : Reply)
    (cart2 cart3 : List Item) (txn : Option String)
    (hpg : jsTrim pg.transcriptBox ≠ "") (hst : st.transcript ≠ "")
    (hok : handleServerResponse pg.currentCart r = .ok cart2)
    (hok2 : handleCartActions st.billCart st.lastTxnId r = .ok (cart3, txn)) :
    (generateBtnClick pg (.json r)).effects =
      pg.effects ++
      [Effect.fetch (jsTrim pg.transcriptBox)
        (pg.currentCart.map (fun item => (item.product_id, item.quantity)))] ++
      [if truthy r.audio_base64 = true then Effect.playServerAudio (r.audio_base64.getD "")
        else Effect.speakResponse r.message] ++
      (if r.action_type = some "checkout" ∧ truthy r.transaction_id = true
        then [Effect.setTransactionId (r.transaction_id.getD "")] else []) ++
      [Effect.reconcile, Effect.renderCart] ∧
    (processVoiceCommand st (.json r)).effects =
      st.effects ++
      [Effect.fetch st.transcript
        (st.billCart.map (fun item => (item.product_id, item.quantity)))] ++
      (if truthy r.audio_base64 = true then [Effect.playServerAudio (r.audio_base64.getD "")]
        else []) ++
      [Effect.reconcile] ++
      (if r.action_type = some "checkout" ∧ truthy r.transaction_id = true
        then [Effect.setTransactionId (r.transaction_id.getD "")] else []) ++
      [Effect.fetchData] := by
  constructor
  · rw [generateBtnClick_effects pg r hpg, hok]
  · rw [processVoiceCommand_effects st r hst, hok2]
    simp only [List.append_assoc]

/-- C14 as amended, at an `add` reply with an audio payload. -/
theorem feedback_then_state_updates_witness :
    (generateBtnClick ⟨[], none, "add maggi", .blank, []⟩
      (.json ⟨"Added", some "add", some [⟨some (.str "p1"), "Maggi", 2, 30⟩], none,
        some "QUJD"⟩)).effects
      = [Effect.fetch "add maggi" [], Effect.playServerAudio "QUJD", Effect.reconcile,
          Effect.renderCart] ∧
    (processVoiceCommand ⟨[], none, "add maggi", "", false, []⟩
      (.json ⟨"Added", some "add", some [⟨some (.str "p1"), "Maggi", 2, 30⟩], none,
        some "QUJD"⟩)).effects
      = [Effect.fetch "add maggi" [], Effect.playServerAudio "QUJD", Effect.reconcile,
          Effect.fetchData] :=
  ⟨(feedback_then_state_updates ⟨[], none, "add maggi", .blank, []⟩
      ⟨[], none, "add maggi", "", false, []⟩
      ⟨"Added", some "add", some [⟨some (.str "p1"), "Maggi", 2, 30⟩], none, some "QUJD"⟩
      [⟨some (.str "p1"), "Maggi", 2, 30⟩] [⟨some (.str "p1"), "Maggi", 2, 30⟩] none
      (by decide) (by decide) rfl rfl).1.trans (by decide),
    (feedback_then_state_updates ⟨[], none, "add maggi", .blank, []⟩
      ⟨[], none, "add maggi", "", false, []⟩
      ⟨"Added", some "add", some [⟨some (.str "p1"), "Maggi", 2, 30⟩], none, some "QUJD"⟩
      [⟨some (.str "p1"), "Maggi", 2, 30⟩] [⟨some (.str "p1"), "Maggi", 2, 30⟩] none
      (by decide) (by decide) rfl rfl).2.trans (by decide)⟩

/-! ## Claims on the agreement of the front ends and on totals -/

/-- Step 3 of `processVoiceCommand` is `handleServerResponse` paired with the transaction id that
the click handler of `script.js` stores. -/
theorem handleCartActions_eq (cart : List Item) (s : Option String) (r : Reply) :
    handleCartActions cart s r =
      (handleServerResponse cart r).map (fun c =>
        (c, if r.action_type = some "checkout" ∧ truthy r.transaction_id = true
          then r.transaction_id else s)) := by
  by_cases h1 : r.action_type = some "add"
  · have hne : r.action_type ≠ some "checkout" := by rw [h1]; decide
    cases hc : r.cart with
    | none =>
      rw [handleCartActions_no_cart cart s r (Or.inl h1) hc,
        handleServerResponse_no_cart cart r (Or.inl h1) hc]
      rfl
    | some delta =>
      rw [handleCartActions_add cart delta s r h1 hc, handleServerResponse_add cart delta r h1 hc]
      simp [Except.map, hne]
  · by_cases h2 : r.action_type = some "remove"
    · have hne : r.action_type ≠ some "checkout" := by rw [h2]; decide
      cases hc : r.cart with
      | none =>
        rw [handleCartActions_no_cart cart s r (Or.inr h2) hc,
          handleServerResponse_no_cart cart r (Or.inr h2) hc]
        rfl
      | some delta =>
        rw [handleCartActions_remove cart delta s r h2 hc,
          handleServerResponse_remove cart delta r h2 hc]
        simp [Except.map, hne]
    · by_cases h3 : r.action_type = some "checkout"
      · rw [handleCartActions_checkout cart s r h3, handleServerResponse_checkout cart r h3]
        simp [Except.map, h3]
      · rw [handleCartActions_other cart s r h1 h2 h3, handleServerResponse_other cart r h1 h2 h3]
        simp [Except.map, h3]

/-- C15. The two front ends implement the same reconciliation: for every cart, stored
transaction id and reply, step 3 of `processVoiceCommand` yields the cart of
`handleServerResponse` together with the id that the click handler of `script.js` stores, and is
rejected exactly when `handleServerResponse` is; so two sessions that hold the same cart and the
same id hold the same cart and the same id after processing the reply. -/
theorem front_ends_reconcile_alike (pg : Page) (st : App) (r : Reply)
    (hcart : pg.currentCart = st.billCart) (htxn : pg.lastTransactionId = st.lastTxnId)
    (hpg : jsTrim pg.transcriptBox ≠ "") (hst : st.transcript ≠ "") :
    handleCartActions st.billCart st.lastTxnId r =
      (handleServerResponse pg.currentCart r).map (fun c =>
        (c, if r.action_type = some "checkout" ∧ truthy r.transaction_id = true
          then r.transaction_id else pg.lastTransactionId)) ∧
    (generateBtnClick pg (.json r)).currentCart = (processVoiceCommand st (.json r)).billCart ∧
    (generateBtnClick pg (.json r)).lastTransactionId
      = (processVoiceCommand st (.json r)).lastTxnId := by
  have heq := handleCartActions_eq st.billCart st.lastTxnId r
  refine ⟨by rw [heq, hcart, htxn], ?_, ?_⟩
  · rw [(generateBtnClick_json pg r hpg).1, (processVoiceCommand_json st r hst).1, heq, hcart]
    cases handleServerResponse st.billCart r <;> rfl
  · rw [(generateBtnClick_json pg r hpg).2.1, processVoiceCommand_lastTxnId st r hst, htxn]

/-- C15, at a cart of one line with `T1` stored and a `checkout` reply carrying `T2`. -/
theorem front_ends_reconcile_alike_witness :
    (generateBtnClick ⟨[⟨some (.str "p1"), "Maggi", 2, 30⟩], some "T1", "checkout", .blank, []⟩
      (.json ⟨"Bill ready", some "checkout", none, some "T2", none⟩)).currentCart
      = (processVoiceCommand ⟨[⟨some (.str "p1"), "Maggi", 2, 30⟩], some "T1", "checkout", "",
          false, []⟩ (.json ⟨"Bill ready", some "checkout", none, some "T2", none⟩)).billCart ∧
    (generateBtnClick ⟨[⟨some (.str "p1"), "Maggi", 2, 30⟩], some "T1", "checkout", .blank, []⟩
      (.json ⟨"Bill ready", some "checkout", none, some "T2", none⟩)).lastTransactionId
      = (processVoiceCommand ⟨[⟨some (.str "p1"), "Maggi", 2, 30⟩], some "T1", "checkout", "",
          false, []⟩ (.json ⟨"Bill ready", some "checkout", none, some "T2", none⟩)).lastTxnId :=
  (front_ends_reconcile_alike
    ⟨[⟨some (.str "p1"), "Maggi", 2, 30⟩], some "T1", "checkout", .blank, []⟩
    ⟨[⟨some (.str "p1"), "Maggi", 2, 30⟩], some "T1", "checkout", "", false, []⟩
    ⟨"Bill ready", some "checkout", none, some "T2", none⟩ rfl rfl (by decide) (by decide)).2

/-- On the store as well, where `script.js` updates its cart array in place and `App.jsx`
allocates a new one, the lines of the cart after a freshly parsed reply are the same in both
front ends. -/
theorem front_ends_alike_on_store (s : PageStore) (t : AppStore) (data : ParsedReply)
    (hheap : s.heap = t.heap) (hcart : s.currentCart = t.billCart)
    (hwf : FreshReply s.heap s.currentCart data) :
    (handleServerResponseRef s data).map (fun s2 => s2.heap.lines s2.currentCart)
      = (handleCartActionsRef t data).map (fun t2 => t2.heap.lines t2.billCart) := by
  have hwf2 : FreshReply t.heap t.billCart data := by rw [← hheap, ← hcart]; exact hwf
  rw [handleServerResponseRef_view s data "" none none hwf,
    handleCartActionsRef_view t data "" none none none hwf2, handleCartActions_eq, hheap, hcart]
  cases handleServerResponse (t.heap.lines t.billCart) (data.view t.heap "" none none) <;> rfl

end VoiceShop
